import Mathlib

/-!
Verification of the Intent Resolution & Query Compilation Engine of
`src/intent_analyzer.py` (classes `IntentAnalysisCache`, `SearchCriteria`,
`IntentAnalyzer`).

The Python code is dynamically typed, so the embedding works over a universe
`PyVal` of Python-like values (None, bool, int, float, str, list, dict) with
Python's truthiness, equality and comparison semantics.  Floats are modelled
as rationals: the code under study performs no float arithmetic, only
comparisons and copies, so no rounding is observable.  Fallible operations
(attribute access on the wrong type, comparisons between incomparable types,
deleting an absent dict key, `min` of an empty sequence, `json.loads` on bad
input) return `Except PyErr` values mirroring the Python exceptions.
-/

/-- Dynamic (Python-like) values: the value universe handled by
`intent_analyzer.py`.  Dicts are modelled as association lists with string
keys (Python dicts preserve insertion order and have unique keys). -/
inductive PyVal where
  | none : PyVal
  | bool : Bool → PyVal
  | int : Int → PyVal
  | float : ℚ → PyVal
  | str : String → PyVal
  | list : List PyVal → PyVal
  | dict : List (String × PyVal) → PyVal

/-- Python exception kinds raised by the code under study. -/
inductive PyErr where
  | typeError : PyErr
  | keyError : PyErr
  | indexError : PyErr
  | attributeError : PyErr
  | valueError : PyErr
  | jsonDecodeError : PyErr
deriving DecidableEq

/-- Numeric view of a value: Python treats `bool` as a numeric subtype of
`int`, so `True` compares equal to `1`. -/
def numValQ : PyVal → Option ℚ
  | .bool b => Option.some (if b then 1 else 0)
  | .int n => Option.some (n : ℚ)
  | .float q => Option.some q
  | _ => Option.none

/-- Python truthiness: `None`, `False`, numeric zero, the empty string and
empty collections are falsy. -/
def pyTruthy : PyVal → Bool
  | .none => false
  | .bool b => b
  | .int n => n ≠ 0
  | .float q => q ≠ 0
  | .str s => s ≠ ""
  | .list xs => !xs.isEmpty
  | .dict d => !d.isEmpty

/-- First value bound to `k` in an association list (no recursion into the
values). -/
def assocFind (b : List (String × PyVal)) (k : String) : Option PyVal :=
  match b.find? (fun p => p.1 = k) with
  | Option.some p => Option.some p.2
  | Option.none => Option.none

mutual

/-- Python `==`: numeric values compare by value across `bool`/`int`/`float`;
strings and lists compare structurally; dicts compare as key-value maps;
mismatched kinds compare unequal (never raising). -/
def pyEq : PyVal → PyVal → Bool
  | .none, y => match y with | .none => true | _ => false
  | .str a, y => match y with | .str b => decide (a = b) | _ => false
  | .list xs, y => match y with | .list ys => pyEqList xs ys | _ => false
  | .dict a, y =>
    match y with
    | .dict b => decide (a.length = b.length) && pyEqDict a b
    | _ => false
  | x, y =>
    match numValQ x, numValQ y with
    | Option.some a, Option.some b => decide (a = b)
    | _, _ => false

def pyEqList : List PyVal → List PyVal → Bool
  | [], ys => ys.isEmpty
  | x :: xs, ys =>
    match ys with
    | [] => false
    | y :: ytail => pyEq x y && pyEqList xs ytail

def pyEqDict : List (String × PyVal) → List (String × PyVal) → Bool
  | [], _ => true
  | (k, v) :: rest, b =>
    (match assocFind b k with
     | Option.some v2 => pyEq v v2
     | Option.none => false) && pyEqDict rest b

end

mutual

/-- Python `<`: defined between numerics, between strings (code-point
lexicographic) and between lists (lexicographic with `==` short-circuit);
every other combination raises `TypeError`. -/
def pyLt : PyVal → PyVal → Except PyErr Bool
  | .str a, .str b => Except.ok (decide (a < b))
  | .list xs, .list ys => pyLtList xs ys
  | x, y =>
    match numValQ x, numValQ y with
    | Option.some a, Option.some b => Except.ok (decide (a < b))
    | _, _ => Except.error PyErr.typeError

def pyLtList : List PyVal → List PyVal → Except PyErr Bool
  | [], [] => Except.ok false
  | [], _ :: _ => Except.ok true
  | _ :: _, [] => Except.ok false
  | x :: xs, y :: ys => if pyEq x y then pyLtList xs ys else pyLt x y

end

/-- Python `a > b` (for the built-in types involved this is `b < a`). -/
def pyGt (a b : PyVal) : Except PyErr Bool := pyLt b a

/-- Python `a <= b` (for the totally ordered built-ins: `not (b < a)`). -/
def pyLe (a b : PyVal) : Except PyErr Bool :=
  match pyLt b a with
  | Except.ok r => Except.ok (!r)
  | Except.error e => Except.error e

/-- Characters stripped by `str.strip()` and matched by the regex class
`\s` (the ASCII whitespace of Python; the code never meets other
whitespace). -/
def isPySpace (c : Char) : Bool :=
  c = ' ' || c = '\t' || c = '\n' || c = '\r' || c = '\x0b' || c = '\x0c'

/-- Python `str.strip()`. -/
def pyStrip (s : String) : String :=
  String.mk (((s.data.dropWhile isPySpace).reverse.dropWhile isPySpace).reverse)

/-- Python `str.strip('"')`. -/
def pyStripQuotes (s : String) : String :=
  String.mk (((s.data.dropWhile (· = '"')).reverse.dropWhile (· = '"')).reverse)

mutual

/-- Python `repr(v)` (strings quoted; escaping inside them is not modelled —
unused; the float case approximates the IEEE repr, also unused on the
paths the claims exercise). -/
def pyRepr : PyVal → String
  | .none => "None"
  | .bool b => if b then "True" else "False"
  | .int n => toString n
  | .float q => if q.den = 1 then toString q.num ++ ".0" else toString q.num ++ "/" ++ toString q.den
  | .str s => "\x27" ++ s ++ "\x27"
  | .list xs => "[" ++ ", ".intercalate (pyReprList xs) ++ "]"
  | .dict d => "\x7b" ++ ", ".intercalate (pyReprDict d) ++ "\x7d"

def pyReprList : List PyVal → List String
  | [] => []
  | x :: xs => pyRepr x :: pyReprList xs

def pyReprDict : List (String × PyVal) → List String
  | [] => []
  | (k, v) :: rest => ("\x27" ++ k ++ "\x27: " ++ pyRepr v) :: pyReprDict rest

end

/-- Python `str(v)`: identical to `repr` except on strings, which pass
through unquoted. -/
def pyToStr : PyVal → String
  | .str s => s
  | .list xs => "[" ++ ", ".intercalate (pyReprList xs) ++ "]"
  | .dict d => "\x7b" ++ ", ".intercalate (pyReprDict d) ++ "\x7d"
  | v => pyRepr v

/-- A Python dict with string keys (association list, unique keys). -/
abbrev PyDict := List (String × PyVal)

/-- Lookup in a dict: `d[k]` when present. -/
def dictLookup (d : PyDict) (k : String) : Option PyVal :=
  match d.find? (fun p => p.1 = k) with
  | Option.some p => Option.some p.2
  | Option.none => Option.none

/-- Python `d.get(k, default)`. -/
def pyGet (d : PyDict) (k : String) (default : PyVal) : PyVal :=
  match dictLookup d k with
  | Option.some v => v
  | Option.none => default

/-- The `SearchCriteria` dataclass of `intent_analyzer.py`.  The dataclass is
dynamically typed: every optional field holds whatever value was passed, so
the fields are `PyVal` (with the dataclass defaults: `None` for the scalars,
`[]` for the collections, installed by `__post_init__`). -/
structure SearchCriteria where
  query : String
  year_start : PyVal := PyVal.none
  year_end : PyVal := PyVal.none
  min_if : PyVal := PyVal.none
  max_if : PyVal := PyVal.none
  cas_zones : List PyVal := []
  jcr_quartiles : List PyVal := []
  keywords : List PyVal := []

/-- The dict produced by `IntentAnalyzer._validate_search_criteria` (it always
carries exactly these keys). -/
structure Validated where
  query : String
  year_start : PyVal
  year_end : PyVal
  min_if : PyVal
  max_if : PyVal
  cas_zones : List PyVal
  jcr_quartiles : List PyVal
  keywords : List String

/-- Lines 793-798: `query = data.get('query', '').strip()`, substituting
`original_input` when the stripped value is empty or shorter than 3
characters.  A non-string query value raises `AttributeError`. -/
def validate_query (qv : PyVal) (original_input : String) : Except PyErr String :=
  match qv with
  | PyVal.str s =>
    let query := pyStrip s
    if query = "" || query.length < 3 then Except.ok original_input else Except.ok query
  | _ => Except.error PyErr.attributeError

/-- Lines 801-813: the year-pair repair.  Runs only when both values are
truthy; swaps a reversed pair, then clamps a `year_end` above
`current_year + 1` down to `current_year`. -/
def validate_years (ys0 ye0 : PyVal) (current_year : Int) : Except PyErr (PyVal × PyVal) :=
  if pyTruthy ys0 && pyTruthy ye0 then do
    let gt ← pyGt ys0 ye0
    let p := if gt then (ye0, ys0) else (ys0, ye0)
    let gt2 ← pyGt p.2 (PyVal.int (current_year + 1))
    Except.ok (p.1, if gt2 then PyVal.int current_year else p.2)
  else Except.ok (ys0, ye0)

/-- Lines 816-827: the impact-factor repair.  Runs only when both values are
truthy; swaps a reversed pair, clamps `min_if` below by 0 and `max_if`
above by 100. -/
def validate_if_pair (mi0 ma0 : PyVal) : Except PyErr (PyVal × PyVal) :=
  if pyTruthy mi0 && pyTruthy ma0 then do
    let gt ← pyGt mi0 ma0
    let p := if gt then (ma0, mi0) else (mi0, ma0)
    let lt0 ← pyLt p.1 (PyVal.int 0)
    let mi := if lt0 then PyVal.int 0 else p.1
    let gt100 ← pyGt p.2 (PyVal.int 100)
    Except.ok (mi, if gt100 then PyVal.int 100 else p.2)
  else Except.ok (mi0, ma0)

/-- Line 833: `[zone for zone in cas_zones if 1 <= zone <= 4]` (Python chained
comparison: `1 <= zone` first, short-circuiting; a non-numeric entry raises
`TypeError`). -/
def filter_cas_zones : List PyVal → Except PyErr (List PyVal)
  | [] => Except.ok []
  | z :: zs => do
    let c1 ← pyLe (PyVal.int 1) z
    let keep ← if c1 then pyLe z (PyVal.int 4) else Except.ok false
    let rest ← filter_cas_zones zs
    Except.ok (if keep then z :: rest else rest)

/-- Line 840: `[q for q in jcr_quartiles if q in valid_quartiles]` (membership
is `==` against each of Q1..Q4; never raises). -/
def filter_jcr_quartiles (xs : List PyVal) : List PyVal :=
  xs.filter (fun q =>
    pyEq q (PyVal.str "Q1") || pyEq q (PyVal.str "Q2") ||
    pyEq q (PyVal.str "Q3") || pyEq q (PyVal.str "Q4"))

/-- Line 847: `[kw.strip() for kw in keywords if kw.strip()]` (a non-string
keyword raises `AttributeError`). -/
def filter_keywords : List PyVal → Except PyErr (List String)
  | [] => Except.ok []
  | k :: ks =>
    match k with
    | PyVal.str s => do
      let rest ← filter_keywords ks
      let t := pyStrip s
      Except.ok (if t ≠ "" then t :: rest else rest)
    | _ => Except.error PyErr.attributeError

/-- Lines 831-835: the `cas_zones` section (non-list input yields `[]`). -/
def validate_cas_zones (v : PyVal) : Except PyErr (List PyVal) :=
  match v with
  | PyVal.list xs => filter_cas_zones xs
  | _ => Except.ok []

/-- Lines 837-842: the `jcr_quartiles` section (non-list input yields `[]`;
never raises). -/
def validate_jcr_quartiles (v : PyVal) : List PyVal :=
  match v with
  | PyVal.list xs => filter_jcr_quartiles xs
  | _ => []

/-- Lines 844-849: the `keywords` section (non-list input yields `[]`). -/
def validate_keywords (v : PyVal) : Except PyErr (List String) :=
  match v with
  | PyVal.list xs => filter_keywords xs
  | _ => Except.ok []

/-- `IntentAnalyzer._validate_search_criteria` (lines 788-851), section by
section in source order.  `current_year` abstracts `datetime.now().year`. -/
def validate_search_criteria (data : PyDict) (original_input : String)
    (current_year : Int) : Except PyErr Validated := do
  let query ← validate_query (pyGet data "query" (PyVal.str "")) original_input
  let years ← validate_years (pyGet data "year_start" PyVal.none)
    (pyGet data "year_end" PyVal.none) current_year
  let ifs ← validate_if_pair (pyGet data "min_if" PyVal.none)
    (pyGet data "max_if" PyVal.none)
  let cas_zones ← validate_cas_zones (pyGet data "cas_zones" (PyVal.list []))
  let jcr_quartiles := validate_jcr_quartiles
    (pyGet data "jcr_quartiles" (PyVal.list []))
  let keywords ← validate_keywords (pyGet data "keywords" (PyVal.list []))
  Except.ok { query := query, year_start := years.1, year_end := years.2,
              min_if := ifs.1, max_if := ifs.2, cas_zones := cas_zones,
              jcr_quartiles := jcr_quartiles, keywords := keywords }

/-- Lines 757-766: the `SearchCriteria` built from a validated record (every
key is present, so the `.get` defaults are never taken). -/
def criteriaOfValidated (v : Validated) : SearchCriteria :=
  { query := v.query, year_start := v.year_start, year_end := v.year_end,
    min_if := v.min_if, max_if := v.max_if, cas_zones := v.cas_zones,
    jcr_quartiles := v.jcr_quartiles,
    keywords := v.keywords.map PyVal.str }

/-- Which backend answered: `self.adapter.config.api_type.lower()` compared
against the two known shapes. -/
inductive ApiType where
  | openai : ApiType
  | gemini : ApiType
  | other : ApiType

/-- Python `v[0]`: heads a list, heads a string (1-character string), raises
`KeyError` on a dict (integer key, never present here), `IndexError` on an
empty sequence and `TypeError` on everything else. -/
def pySubscript0 : PyVal → Except PyErr PyVal
  | PyVal.list [] => Except.error PyErr.indexError
  | PyVal.list (x :: _) => Except.ok x
  | PyVal.str s =>
    match s.data with
    | [] => Except.error PyErr.indexError
    | c :: _ => Except.ok (PyVal.str (String.mk [c]))
  | PyVal.dict _ => Except.error PyErr.keyError
  | _ => Except.error PyErr.typeError

/-- Python `v.get(k, default)` on an arbitrary value: only dicts have `.get`;
anything else raises `AttributeError` (which `_extract_response_content`
does NOT catch). -/
def pyDotGet (v : PyVal) (k : String) (default : PyVal) : Except PyErr PyVal :=
  match v with
  | PyVal.dict d => Except.ok (pyGet d k default)
  | _ => Except.error PyErr.attributeError

/-- Lines 710-715 / 723-728: the content value is joined with spaces if it is
a list, converted with `str()` if it is not a string, then stripped. -/
def renderContent (content : PyVal) : String :=
  match content with
  | PyVal.list items => pyStrip (" ".intercalate (items.map pyToStr))
  | PyVal.str s => pyStrip s
  | v => pyStrip (pyToStr v)

/-- The body of the `try` block of `_extract_response_content`
(lines 706-728): `Option.none` means the block fell through without an
explicit `return`. -/
def extractBody (api : ApiType) (response : PyDict) : Except PyErr (Option String) :=
  match api with
  | ApiType.openai =>
    let choices := pyGet response "choices" (PyVal.list [])
    if pyTruthy choices then do
      let c0 ← pySubscript0 choices
      let msg ← pyDotGet c0 "message" (PyVal.dict [])
      let content ← pyDotGet msg "content" (PyVal.str "")
      Except.ok (Option.some (renderContent content))
    else Except.ok Option.none
  | ApiType.gemini =>
    let candidates := pyGet response "candidates" (PyVal.list [])
    if pyTruthy candidates then do
      let c0 ← pySubscript0 candidates
      let content ← pyDotGet c0 "content" (PyVal.dict [])
      let parts ← pyDotGet content "parts" (PyVal.list [])
      if pyTruthy parts then do
        let p0 ← pySubscript0 parts
        let text ← pyDotGet p0 "text" (PyVal.str "")
        Except.ok (Option.some (renderContent text))
      else Except.ok Option.none
    else Except.ok Option.none
  | ApiType.other => Except.ok Option.none

/-- `IntentAnalyzer._extract_response_content` (lines 701-735).  An explicit
`error` key short-circuits to a diagnostic string; the `except` clause
catches only `KeyError`, `IndexError` and `TypeError` (turning them into
`""`), so `AttributeError` escapes to the caller. -/
def extract_response_content (api : ApiType) (response : PyDict) :
    Except PyErr String :=
  match dictLookup response "error" with
  | Option.some e => Except.ok ("错误: " ++ pyToStr e)
  | Option.none =>
    match extractBody api response with
    | Except.ok (Option.some s) => Except.ok s
    | Except.ok Option.none => Except.ok ""
    | Except.error PyErr.keyError => Except.ok ""
    | Except.error PyErr.indexError => Except.ok ""
    | Except.error PyErr.typeError => Except.ok ""
    | Except.error e => Except.error e

/-- Does `l` start with the pattern `pat`? -/
def charsStartWith : List Char → List Char → Bool
  | _, [] => true
  | [], _ :: _ => false
  | c :: cs, p :: ps => c = p && charsStartWith cs ps

/-- Does `l` contain `pat` as a contiguous substring? -/
def charsContain (l pat : List Char) : Bool :=
  match l with
  | [] => pat.isEmpty
  | c :: t => charsStartWith (c :: t) pat || charsContain t pat

/-- One attempt of the pattern `"query"\s*:\s*"([^"]+)"` anchored at the head
of `l`; returns the capture group on success. -/
def queryPatAt (l : List Char) : Option String :=
  if charsStartWith l ("\"query\"".data) then
    match (l.drop 7).dropWhile isPySpace with
    | ':' :: r2 =>
      match r2.dropWhile isPySpace with
      | '"' :: r4 =>
        let body := r4.takeWhile (fun c => !(c = '"'))
        if body.isEmpty then Option.none
        else
          match r4.dropWhile (fun c => !(c = '"')) with
          | '"' :: _ => Option.some (String.mk body)
          | _ => Option.none
      | _ => Option.none
    | _ => Option.none
  else Option.none

/-- Line 856: `re.search(r'"query"\s*:\s*"([^"]+)"', ai_response)` — leftmost
match of the loose query pattern. -/
def searchQueryPat : List Char → Option String
  | [] => Option.none
  | c :: t =>
    match queryPatAt (c :: t) with
    | Option.some r => Option.some r
    | Option.none => searchQueryPat t

/-- Case-insensitive test `'query' in line.lower()`. -/
def lowerContainsQuery (line : String) : Bool :=
  charsContain (line.data.map Char.toLower) ("query".data)

/-- The tail after the first `':'` (Python `line.split(':', 1)[1]`). -/
def splitColonTail : List Char → Option (List Char)
  | [] => Option.none
  | ':' :: rest => Option.some rest
  | _ :: rest => splitColonTail rest

/-- Python `response.split('\n')`: the newline-separated segments, keeping
empty ones. -/
def splitOnNewline : List Char → List (List Char)
  | [] => [[]]
  | c :: rest =>
    if c = '\n' then [] :: splitOnNewline rest
    else
      match splitOnNewline rest with
      | [] => [[c]]
      | g :: gs => (c :: g) :: gs

/-- `IntentAnalyzer._extract_basic_query` (lines 879-889): the first line
containing `query` (case-insensitively) and a colon contributes the text
after its first colon, stripped of whitespace and then of double quotes;
otherwise the first 100 characters of the response are returned. -/
def extract_basic_query (response : String) : String :=
  match ((splitOnNewline response.data).map String.mk).find?
      (fun line => lowerContainsQuery line && line.data.contains ':') with
  | Option.some line =>
    match splitColonTail line.data with
    | Option.some tail => pyStripQuotes (pyStrip (String.mk tail))
    | Option.none => String.mk (response.data.take 100)
  | Option.none => String.mk (response.data.take 100)

/-- Line 866: `re.findall(r'(20\d{2})', ai_response)` — the non-overlapping
four-digit years starting `20`, already converted to integers. -/
def findYears : List Char → List Int
  | '2' :: '0' :: c :: d :: rest =>
    if c.isDigit && d.isDigit then
      ((2000 + 10 * ((c.toNat : Int) - 48) + ((d.toNat : Int) - 48)) : Int)
        :: findYears rest
    else findYears ('0' :: c :: d :: rest)
  | _ :: rest => findYears rest
  | [] => []

/-- `IntentAnalyzer._fallback_parse_response` (lines 853-877): loose query
recovery plus year extraction; the impact-factor fields are never set. -/
def fallback_parse_response (ai_response original_input : String) :
    SearchCriteria :=
  let query :=
    match searchQueryPat ai_response.data with
    | Option.some q => q
    | Option.none => extract_basic_query ai_response
  let years := (findYears ai_response.data).dedup
  let yearPair : PyVal × PyVal :=
    if 2 ≤ years.length then
      match years.min?, years.max? with
      | Option.some lo, Option.some hi => (PyVal.int lo, PyVal.int hi)
      | _, _ => (PyVal.none, PyVal.none)
    else (PyVal.none, PyVal.none)
  { query := if query ≠ "" then query else original_input,
    year_start := yearPair.1, year_end := yearPair.2 }

/-- The tail after the first newline, if any (the `//...\n` comment pattern
needs a terminating newline to match at all). -/
def dropThroughNewline : List Char → Option (List Char)
  | [] => Option.none
  | c :: rest => if c = '\n' then Option.some rest else dropThroughNewline rest

/-- The tail after the first occurrence of the two characters star-slash. -/
def dropThroughStarSlash : List Char → Option (List Char)
  | [] => Option.none
  | [_] => Option.none
  | c :: d :: rest =>
    if c = '*' && d = '/' then Option.some rest
    else dropThroughStarSlash (d :: rest)

/-- Line 778: `re.sub(r'//.*?\n', '\n', json_str)` — each line comment with a
terminating newline collapses to that newline; without one it is left
alone (the pattern cannot match).  Fuel-driven for kernel reducibility;
each consumed match eats at least one character, so fuel = length is
always enough (the wrapper below supplies it). -/
def stripLineCommentsF : Nat → List Char → List Char
  | 0, l => l
  | _, [] => []
  | fuel + 1, c :: d :: rest =>
    if c = '/' && d = '/' then
      match dropThroughNewline rest with
      | Option.some tail => '\n' :: stripLineCommentsF fuel tail
      | Option.none => c :: d :: rest
    else c :: stripLineCommentsF fuel (d :: rest)
  | _, [c] => [c]

def stripLineComments (l : List Char) : List Char :=
  stripLineCommentsF l.length l

/-- Line 779: `re.sub(r'/\*.*?\*/', '', json_str, flags=re.DOTALL)` — each
terminated block comment is deleted (fuel-driven as above). -/
def stripBlockCommentsF : Nat → List Char → List Char
  | 0, l => l
  | _, [] => []
  | fuel + 1, c :: d :: rest =>
    if c = '/' && d = '*' then
      match dropThroughStarSlash rest with
      | Option.some tail => stripBlockCommentsF fuel tail
      | Option.none => c :: d :: rest
    else c :: stripBlockCommentsF fuel (d :: rest)
  | _, [c] => [c]

def stripBlockComments (l : List Char) : List Char :=
  stripBlockCommentsF l.length l

/-- Lines 783-784: `re.sub(r',\s*X', 'X', json_str)` for a closing bracket
`X` — a comma followed by whitespace and the closer is replaced by the
closer alone (fuel-driven as above). -/
def fixTrailingCommaF (close : Char) : Nat → List Char → List Char
  | 0, l => l
  | _, [] => []
  | fuel + 1, c :: rest =>
    if c = ',' then
      match rest.dropWhile isPySpace with
      | d :: tail2 =>
        if d = close then close :: fixTrailingCommaF close fuel tail2
        else c :: fixTrailingCommaF close fuel rest
      | [] => c :: fixTrailingCommaF close fuel rest
    else c :: fixTrailingCommaF close fuel rest

def fixTrailingComma (close : Char) (l : List Char) : List Char :=
  fixTrailingCommaF close l.length l

/-- `IntentAnalyzer._clean_json_string` (lines 775-786): strip line and block
comments, turn single quotes into double quotes, remove trailing commas
before closing braces and brackets, strip. -/
def clean_json_string (s : String) : String :=
  let l1 := stripLineComments s.data
  let l2 := stripBlockComments l1
  let l3 := l2.map (fun c => if c = '\'' then '"' else c)
  let l4 := fixTrailingComma '\x7d' l3
  let l5 := fixTrailingComma ']' l4
  pyStrip (String.mk l5)

/-- Generic association-list update with dict semantics: updating an existing
key keeps its position (as Python dicts do); a new key is appended. -/
def assocSet {α β : Type} [DecidableEq α] (l : List (α × β)) (k : α) (v : β) :
    List (α × β) :=
  if l.any (fun p => p.1 = k) then l.map (fun p => if p.1 = k then (k, v) else p)
  else l ++ [(k, v)]

/-- Scan for the lazily matched group of `(\{.*?\})\s*` + fence close: the
interior up to the first closing brace that is followed (after whitespace)
by three backticks. -/
def braceScanGroup (acc : List Char) : List Char → Option (List Char)
  | [] => Option.none
  | c :: rest =>
    if c = '\x7d' then
      if charsStartWith (rest.dropWhile isPySpace) ("```".data) then
        Option.some acc.reverse
      else braceScanGroup (c :: acc) rest
    else braceScanGroup (c :: acc) rest

/-- One attempt of `re.search(r'```json\s*(\{.*?\})\s*```', s, re.DOTALL)`
anchored at the head of `l`; the returned string is group 1 (braces
included). -/
def fencedJsonAt (l : List Char) : Option String :=
  if charsStartWith l ("```json".data) then
    match (l.drop 7).dropWhile isPySpace with
    | '\x7b' :: body =>
      match braceScanGroup [] body with
      | Option.some interior =>
        Option.some (String.mk ('\x7b' :: (interior ++ ['\x7d'])))
      | Option.none => Option.none
    | _ => Option.none
  else Option.none

/-- Line 741: leftmost match of the fenced-JSON pattern. -/
def searchFencedJson : List Char → Option String
  | [] => Option.none
  | c :: t =>
    match fencedJsonAt (c :: t) with
    | Option.some r => Option.some r
    | Option.none => searchFencedJson t

/-- JSON whitespace (as skipped by Python's `json.loads`). -/
def jsonWs (l : List Char) : List Char :=
  l.dropWhile (fun c => c = ' ' || c = '\t' || c = '\n' || c = '\r')

/-- Decimal value of a digit run. -/
def digitsVal (ds : List Char) : Nat :=
  ds.foldl (fun acc c => 10 * acc + (c.toNat - 48)) 0

/-- The body of a JSON string after the opening quote: the decoded
characters and the rest after the closing quote.  Standard escapes and
`\uXXXX` are decoded; fuel bounds the scan. -/
def jsonStringRest : Nat → List Char → Option (List Char × List Char)
  | 0, _ => Option.none
  | _, [] => Option.none
  | fuel + 1, c :: rest =>
    if c = '"' then Option.some ([], rest)
    else if c = '\\' then
      match rest with
      | [] => Option.none
      | e :: rest2 =>
        let dec : Option (Char × List Char) :=
          if e = 'n' then Option.some ('\n', rest2)
          else if e = 't' then Option.some ('\t', rest2)
          else if e = 'r' then Option.some ('\r', rest2)
          else if e = 'b' then Option.some ('\x08', rest2)
          else if e = 'f' then Option.some ('\x0c', rest2)
          else if e = '"' then Option.some ('"', rest2)
          else if e = '\\' then Option.some ('\\', rest2)
          else if e = '/' then Option.some ('/', rest2)
          else if e = 'u' then
            match rest2 with
            | h1 :: h2 :: h3 :: h4 :: rest3 =>
              let hv : Char → Option Nat := fun ch =>
                if ch.isDigit then Option.some (ch.toNat - 48)
                else if 'a' ≤ ch && ch ≤ 'f' then Option.some (ch.toNat - 87)
                else if 'A' ≤ ch && ch ≤ 'F' then Option.some (ch.toNat - 55)
                else Option.none
              match hv h1, hv h2, hv h3, hv h4 with
              | Option.some a, Option.some b, Option.some c, Option.some d =>
                Option.some (Char.ofNat (4096 * a + 256 * b + 16 * c + d), rest3)
              | _, _, _, _ => Option.none
            | _ => Option.none
          else Option.none
        match dec with
        | Option.some (ch, r) =>
          match jsonStringRest fuel r with
          | Option.some p => Option.some (ch :: p.1, p.2)
          | Option.none => Option.none
        | Option.none => Option.none
    else
      match jsonStringRest fuel rest with
      | Option.some p => Option.some (c :: p.1, p.2)
      | Option.none => Option.none

/-- A JSON number starting at `l` (which begins with `-` or a digit).
Exact value: a number with a fraction or exponent becomes a float
(modelled as the exact rational), otherwise an int. -/
def jsonNumber (l : List Char) : Option (PyVal × List Char) :=
  let p := match l with
    | '-' :: t => (true, t)
    | _ => (false, l)
  let neg := p.1
  let l1 := p.2
  let intDs := l1.takeWhile Char.isDigit
  let r1 := l1.dropWhile Char.isDigit
  if intDs.isEmpty then Option.none
  else
    let fp : List Char × List Char := match r1 with
      | '.' :: t => (t.takeWhile Char.isDigit, t.dropWhile Char.isDigit)
      | _ => ([], r1)
    let fracDs := fp.1
    let r2 := fp.2
    let hasFrac : Bool := match r1 with | '.' :: _ => true | _ => false
    if hasFrac && fracDs.isEmpty then Option.none
    else
      let ep : Option (Bool × List Char × List Char) := match r2 with
        | 'e' :: t | 'E' :: t =>
          let sp : Bool × List Char := match t with
            | '-' :: u => (true, u)
            | '+' :: u => (false, u)
            | _ => (false, t)
          Option.some (sp.1, sp.2.takeWhile Char.isDigit, sp.2.dropWhile Char.isDigit)
        | _ => Option.none
      match ep with
      | Option.some (en, eds, r3) =>
        if eds.isEmpty then Option.none
        else
          let mant : ℚ := (digitsVal intDs : ℚ) +
            (digitsVal fracDs : ℚ) / ((10 : ℚ) ^ fracDs.length)
          let ex : ℤ := if en then -(digitsVal eds : ℤ) else (digitsVal eds : ℤ)
          let q := (if neg then -mant else mant) * (10 : ℚ) ^ ex
          Option.some (PyVal.float q, r3)
      | Option.none =>
        if hasFrac then
          let mant : ℚ := (digitsVal intDs : ℚ) +
            (digitsVal fracDs : ℚ) / ((10 : ℚ) ^ fracDs.length)
          Option.some (PyVal.float (if neg then -mant else mant), r2)
        else
          let n : ℤ := (digitsVal intDs : ℤ)
          Option.some (PyVal.int (if neg then -n else n), r2)

mutual

/-- One JSON value starting at `l` (leading whitespace already skipped by the
caller for composite positions; skipped here for safety at the top).
Returns the value and the unconsumed rest.  Fuel bounds the nesting. -/
def jsonValue (fuel : Nat) (l : List Char) : Option (PyVal × List Char) :=
  match fuel with
  | 0 => Option.none
  | fuel + 1 =>
    match jsonWs l with
    | [] => Option.none
    | c :: rest =>
      if c = '\x7b' then
        match jsonWs rest with
        | '\x7d' :: r2 => Option.some (PyVal.dict [], r2)
        | r => jsonMembers fuel r []
      else if c = '[' then
        match jsonWs rest with
        | ']' :: r2 => Option.some (PyVal.list [], r2)
        | r => jsonElements fuel r []
      else if c = '"' then
        match jsonStringRest (rest.length + 1) rest with
        | Option.some (content, r) => Option.some (PyVal.str (String.mk content), r)
        | Option.none => Option.none
      else if charsStartWith (c :: rest) ("true".data) then
        Option.some (PyVal.bool true, (c :: rest).drop 4)
      else if charsStartWith (c :: rest) ("false".data) then
        Option.some (PyVal.bool false, (c :: rest).drop 5)
      else if charsStartWith (c :: rest) ("null".data) then
        Option.some (PyVal.none, (c :: rest).drop 4)
      else if c = '-' || c.isDigit then jsonNumber (c :: rest)
      else Option.none

def jsonMembers (fuel : Nat) (l : List Char) (acc : List (String × PyVal)) :
    Option (PyVal × List Char) :=
  match fuel with
  | 0 => Option.none
  | fuel + 1 =>
    match jsonWs l with
    | '"' :: rest =>
      match jsonStringRest (rest.length + 1) rest with
      | Option.some (key, r1) =>
        match jsonWs r1 with
        | ':' :: r2 =>
          match jsonValue fuel r2 with
          | Option.some (v, r3) =>
            let acc2 := assocSet acc (String.mk key) v
            match jsonWs r3 with
            | ',' :: r4 => jsonMembers fuel r4 acc2
            | '\x7d' :: r4 => Option.some (PyVal.dict acc2, r4)
            | _ => Option.none
          | Option.none => Option.none
        | _ => Option.none
      | Option.none => Option.none
    | _ => Option.none

def jsonElements (fuel : Nat) (l : List Char) (acc : List PyVal) :
    Option (PyVal × List Char) :=
  match fuel with
  | 0 => Option.none
  | fuel + 1 =>
    match jsonValue fuel l with
    | Option.some (v, r1) =>
      match jsonWs r1 with
      | ',' :: r2 => jsonElements fuel r2 (acc ++ [v])
      | ']' :: r2 => Option.some (PyVal.list (acc ++ [v]), r2)
      | _ => Option.none
    | Option.none => Option.none

end

/-- Python `json.loads` on the cleaned candidate text (strict-mode details
such as the leading-zero restriction and control-character rejection are
not load-bearing for any claim and are modelled permissively). -/
def jsonLoads (s : String) : Except PyErr PyVal :=
  match jsonValue (s.data.length + 1) s.data with
  | Option.some (v, rest) =>
    if (jsonWs rest).isEmpty then Except.ok v
    else Except.error PyErr.jsonDecodeError
  | Option.none => Except.error PyErr.jsonDecodeError

/-- `IntentAnalyzer._parse_ai_response_with_validation` (lines 737-773):
fenced extraction, cleaning, strict decode, validation; a decode failure
(`JSONDecodeError`) is caught and recovered by the heuristic fallback,
while exceptions raised inside validation (or by calling `.get` on a
non-dict decode result) propagate. -/
def parse_ai_response_with_validation (ai_response original_input : String)
    (current_year : Int) : Except PyErr SearchCriteria :=
  let json_str :=
    match searchFencedJson ai_response.data with
    | Option.some s => s
    | Option.none => pyStrip ai_response
  let cleaned := clean_json_string json_str
  match jsonLoads cleaned with
  | Except.error _ =>
    Except.ok (fallback_parse_response ai_response original_input)
  | Except.ok data =>
    match data with
    | PyVal.dict d =>
      match validate_search_criteria d original_input current_year with
      | Except.ok v => Except.ok (criteriaOfValidated v)
      | Except.error e => Except.error e
    | _ => Except.error PyErr.attributeError

/-- `IntentAnalyzer.build_pubmed_query` (lines 891-911): the base query plus
an optional date-range fragment, each non-blank fragment parenthesized and
joined with `" AND "`. -/
def build_pubmed_query (criteria : SearchCriteria) : String :=
  let base := [criteria.query]
  let query_parts :=
    if pyTruthy criteria.year_start || pyTruthy criteria.year_end then
      let year_filter :=
        if pyTruthy criteria.year_start && pyTruthy criteria.year_end then
          "(\"" ++ pyToStr criteria.year_start ++ "\"[Date - Publication] : \""
            ++ pyToStr criteria.year_end ++ "\"[Date - Publication])"
        else if pyTruthy criteria.year_start then
          "\"" ++ pyToStr criteria.year_start
            ++ "\"[Date - Publication] : 3000[Date - Publication]"
        else
          "1800[Date - Publication] : \"" ++ pyToStr criteria.year_end
            ++ "\"[Date - Publication]"
      if year_filter ≠ "" then base ++ [year_filter] else base
    else base
  " AND ".intercalate
    ((query_parts.filter (fun p => pyStrip p ≠ "")).map (fun p => "(" ++ p ++ ")"))

/-- Cache keys.  `_generate_cache_key` hashes (SHA-256) the string
`user_input + ":" + model_id + ":" + json.dumps(parameters, sort_keys=True)`;
the spec treats digest collisions as impossible, so the key is modelled by
its pre-image: the triple (user input, model id, canonically serialized
parameters). -/
abbrev CacheKey := String × String × String

/-- One value of `self.cache[key]` (lines 92-98): the criteria plus
bookkeeping fields. -/
structure CacheEntry where
  criteria : SearchCriteria
  timestamp : ℚ
  user_input : String
  model_id : String
  parameters : String

/-- Lookup in an association list with arbitrary (decidable) key type. -/
def assocLookup {α β : Type} [DecidableEq α] (l : List (α × β)) (k : α) :
    Option β :=
  match l.find? (fun p => p.1 = k) with
  | Option.some p => Option.some p.2
  | Option.none => Option.none

/-- Membership test for an association list. -/
def assocContains {α β : Type} [DecidableEq α] (l : List (α × β)) (k : α) :
    Bool :=
  (assocLookup l k).isSome

/-- Python `del d[k]`: raises `KeyError` when the key is absent. -/
def pyDelKey {α β : Type} [DecidableEq α] (l : List (α × β)) (k : α) :
    Except PyErr (List (α × β)) :=
  if assocContains l k then Except.ok (l.filter (fun p => ¬ p.1 = k))
  else Except.error PyErr.keyError

/-- Python `min(seq, key=f)` scanning: keeps the first element and replaces
it only on a strictly smaller key, so ties resolve to the earliest
element in iteration order. -/
def minByVal {α : Type} (best : α × ℚ) : List (α × ℚ) → α × ℚ
  | [] => best
  | p :: rest => minByVal (if p.2 < best.2 then p else best) rest

/-- Line 87: `min(self.access_times.keys(), key=lambda k: access_times[k])`;
`Option.none` models the `ValueError` of `min` on an empty sequence. -/
def minAccessPair (l : List (CacheKey × ℚ)) : Option (CacheKey × ℚ) :=
  match l with
  | [] => Option.none
  | p :: rest => Option.some (minByVal p rest)

/-- The mutable state of `IntentAnalysisCache` (lines 39-121).  Both dicts
are modelled as insertion-ordered association lists; `time.time()` values
are rationals supplied by the caller. -/
structure IntentAnalysisCache where
  cache_size : Nat
  ttl : ℚ
  cache : List (CacheKey × CacheEntry)
  access_times : List (CacheKey × ℚ)
  hits : Nat
  misses : Nat
  evictions : Nat

/-- A fresh cache (`__init__`, lines 42-52). -/
def IntentAnalysisCache.init (cache_size : Nat) (ttl : ℚ) :
    IntentAnalysisCache :=
  { cache_size := cache_size, ttl := ttl, cache := [], access_times := [],
    hits := 0, misses := 0, evictions := 0 }

/-- `IntentAnalysisCache.get` (lines 59-78): a fresh-enough entry refreshes
its access time and counts a hit; an expired entry is deleted from both
dicts and counts an eviction plus a miss; an absent key counts a miss. -/
def IntentAnalysisCache.get (s : IntentAnalysisCache) (k : CacheKey)
    (now : ℚ) : Option SearchCriteria × IntentAnalysisCache :=
  match assocLookup s.cache k with
  | Option.some entry =>
    if now - entry.timestamp < s.ttl then
      (Option.some entry.criteria,
       { s with access_times := assocSet s.access_times k now,
                hits := s.hits + 1 })
    else
      (Option.none,
       { s with cache := s.cache.filter (fun p => ¬ p.1 = k),
                access_times :=
                  if assocContains s.access_times k then
                    s.access_times.filter (fun p => ¬ p.1 = k)
                  else s.access_times,
                evictions := s.evictions + 1, misses := s.misses + 1 })
  | Option.none => (Option.none, { s with misses := s.misses + 1 })

/-- `IntentAnalysisCache.put` (lines 80-99): with the store at or above
capacity, the key of least-recent access time is evicted from both dicts
(a `ValueError` escapes if `access_times` is empty, a `KeyError` if the
dicts disagree); then the entry and its access time are written. -/
def IntentAnalysisCache.put (s : IntentAnalysisCache) (k : CacheKey)
    (criteria : SearchCriteria) (now : ℚ) :
    Except PyErr IntentAnalysisCache := do
  let s1 ←
    if s.cache_size ≤ s.cache.length then
      match minAccessPair s.access_times with
      | Option.none => Except.error PyErr.valueError
      | Option.some best => do
        let cache2 ← pyDelKey s.cache best.1
        let at2 ← pyDelKey s.access_times best.1
        Except.ok { s with cache := cache2, access_times := at2,
                           evictions := s.evictions + 1 }
    else Except.ok s
  let entry : CacheEntry :=
    { criteria := criteria, timestamp := now, user_input := k.1,
      model_id := k.2.1, parameters := k.2.2 }
  Except.ok { s1 with cache := assocSet s1.cache k entry,
                      access_times := assocSet s1.access_times k now }

/-- `IntentAnalysisCache.clear` (lines 101-106). -/
def IntentAnalysisCache.clear (s : IntentAnalysisCache) :
    IntentAnalysisCache :=
  { s with cache := [], access_times := [], hits := 0, misses := 0,
           evictions := 0 }

/-- The parts of the `IntentAnalyzer` object state that `analyze_intent`
reads and writes.  `enable_cache` covers the constructor invariant that
`analysis_cache` is present exactly when caching is enabled; `api` is
`self.adapter.config.api_type.lower()`; `model_id`/`parameters` identify
the cache key; the counters are `self.performance_stats`. -/
structure IntentAnalyzer where
  enable_cache : Bool
  api : ApiType
  model_id : String
  parameters : String
  analysis_cache : IntentAnalysisCache
  total_analyses : Nat
  cache_hits : Nat
  ai_calls : Nat
  errors : Nat
  total_latency : ℚ

/-- The cache key of a resolution (`_generate_cache_key` pre-image). -/
def IntentAnalyzer.cacheKeyOf (st : IntentAnalyzer) (user_input : String) :
    CacheKey :=
  (user_input, st.model_id, st.parameters)

/-- `IntentAnalyzer.analyze_intent` (lines 491-552).  The backend call
`self.adapter.send_message(...)` is the external collaborator; its outcome
(a response envelope, or a raised transport exception) is the `aiResult`
parameter.  `now` stands for `time.time()` during cache access and
`latency` for the measured elapsed time.  Every exception raised between
the send and the return — extraction's `AttributeError`, validation
errors, the cache `put`'s `ValueError` — is caught by the outer
`except Exception` and converted to the original-input fallback with the
error counter incremented.  A resolved criteria whose query equals the
user input is returned without being stored. -/
def IntentAnalyzer.analyze_intent (st : IntentAnalyzer) (user_input : String)
    (aiResult : Except PyErr PyDict) (current_year : Int) (now : ℚ)
    (latency : ℚ) : SearchCriteria × IntentAnalyzer :=
  let st := { st with total_analyses := st.total_analyses + 1 }
  let key := st.cacheKeyOf user_input
  let hitResult : Option SearchCriteria × IntentAnalyzer :=
    if st.enable_cache then
      let r := st.analysis_cache.get key now
      (r.1, { st with analysis_cache := r.2 })
    else (Option.none, st)
  match hitResult with
  | (Option.some cached, st) =>
    (cached, { st with cache_hits := st.cache_hits + 1 })
  | (Option.none, st) =>
    match aiResult with
    | Except.error _ =>
      ({ query := user_input }, { st with errors := st.errors + 1 })
    | Except.ok response =>
      let st := { st with ai_calls := st.ai_calls + 1 }
      match extract_response_content st.api response with
      | Except.error _ =>
        ({ query := user_input }, { st with errors := st.errors + 1 })
      | Except.ok ai_response =>
        if ai_response = "" || pyStrip ai_response = "" then
          ({ query := user_input }, st)
        else
          match parse_ai_response_with_validation ai_response user_input
              current_year with
          | Except.error _ =>
            ({ query := user_input }, { st with errors := st.errors + 1 })
          | Except.ok criteria =>
            if st.enable_cache && !(criteria.query = user_input) then
              match st.analysis_cache.put key criteria now with
              | Except.ok cache2 =>
                (criteria,
                 { st with analysis_cache := cache2,
                           total_latency := st.total_latency + latency })
              | Except.error _ =>
                ({ query := user_input }, { st with errors := st.errors + 1 })
            else
              (criteria, { st with total_latency := st.total_latency + latency })

/-- `IntentAnalyzer.analyze_batch_intents` (lines 571-601), thread-pool
path.  The submission loop `for input_text in user_inputs` leaves
`input_text` bound to the LAST input; the collection loop's `except`
branch then builds its fallback from that leaked variable.  A task's
outcome is `Option.some` of its result or `Option.none` for a timeout or
other `future.result` failure; when `user_inputs` is empty no task
exists, so the (otherwise `NameError`-raising) fallback branch is
unreachable and its default is irrelevant. -/
def analyze_batch_intents (user_inputs : List String)
    (taskResults : List (Option SearchCriteria)) : List SearchCriteria :=
  let leaked := match user_inputs.getLast? with
    | Option.some t => t
    | Option.none => ""
  taskResults.map (fun r =>
    match r with
    | Option.some c => c
    | Option.none => { query := leaked })

/-- The example criteria of the query-compilation claim. -/
def diabetesCriteria : SearchCriteria :=
  { query := "diabetes", year_start := PyVal.int 2020, year_end := PyVal.int 2024 }

/-- C7: query compilation is deterministic and idempotent (equal criteria
give byte-identical output), and on `diabetesCriteria` — that is,
query `diabetes`, year 2020 to 2024 — it returns exactly
`(diabetes) AND (("2020"[Date - Publication] : "2024"[Date - Publication]))`. -/
theorem C7_compile_deterministic :
    (∀ c1 c2 : SearchCriteria, c1 = c2 →
      build_pubmed_query c1 = build_pubmed_query c2) ∧
    build_pubmed_query diabetesCriteria =
      "(diabetes) AND ((\"2020\"[Date - Publication] : \"2024\"[Date - Publication]))" := by
  constructor
  · intro c1 c2 h
    rw [h]
  · rfl

/-- Witness for C7 at the concrete criteria of the claim. -/
theorem C7_witness :
    build_pubmed_query diabetesCriteria = build_pubmed_query diabetesCriteria ∧
    build_pubmed_query diabetesCriteria =
      "(diabetes) AND ((\"2020\"[Date - Publication] : \"2024\"[Date - Publication]))" :=
  ⟨C7_compile_deterministic.1 diabetesCriteria diabetesCriteria rfl,
   C7_compile_deterministic.2⟩

/-- C1 (code-bug evidence): in the batch entry point, when the task for the
FIRST input (`"alpha"`) fails or times out while the second succeeds, the
fallback placed at position 0 carries the query `"beta"` — the value the
loop variable `input_text` leaked from the submission loop — not
`"alpha"` as the claim (and the spec) require. -/
theorem C1_batch_leaked_fallback :
    (analyze_batch_intents ["alpha", "beta"]
        [Option.none, Option.some { query := "x" }]).map SearchCriteria.query
      = ["beta", "x"] ∧ ("beta" : String) ≠ "alpha" := by
  exact ⟨rfl, by decide⟩

/-- The criteria the real pipeline produces on the C2 counterexample text. -/
def c2FallbackResult : SearchCriteria :=
  { query := "diabetes", year_start := PyVal.int 2019, year_end := PyVal.int 2023 }

/-- C2 (counterexample): the response text `query:` newline `2019 2023`
defeats every structured stage (it is not JSON), and the heuristic stage
recovers no query from it (the loose pattern finds nothing and the colon
line yields the empty string), so the query correctly falls back to the
original input — but the year fields are still populated from the two
four-digit years, contradicting the claim that no year fields are set. -/
theorem C2_counterexample :
    searchQueryPat ("query:\n2019 2023".data) = Option.none ∧
    extract_basic_query "query:\n2019 2023" = "" ∧
    parse_ai_response_with_validation "query:\n2019 2023" "diabetes" 2025 =
      Except.ok c2FallbackResult ∧
    c2FallbackResult.year_start ≠ PyVal.none := by
  refine ⟨rfl, rfl, rfl, fun h => PyVal.noConfusion h⟩

/-- C2 (amended): when the heuristic fallback stage recovers no query
fragment at all — the loose pattern `"query": "..."` has no match and the
colon-line extraction yields the empty string — the resulting criteria
has `query` equal to the original input verbatim and no impact-factor
fields; the year fields, however, may still be populated from four-digit
years found in the text. -/
theorem C2_fallback_query_original (resp orig : String)
    (h1 : searchQueryPat resp.data = Option.none)
    (h2 : extract_basic_query resp = "") :
    (fallback_parse_response resp orig).query = orig ∧
    (fallback_parse_response resp orig).min_if = PyVal.none ∧
    (fallback_parse_response resp orig).max_if = PyVal.none := by
  simp [fallback_parse_response, h1, h2]

/-- Witness for C2 at the counterexample response. -/
theorem C2_witness :
    (fallback_parse_response "query:\n2019 2023" "diabetes").query = "diabetes" ∧
    (fallback_parse_response "query:\n2019 2023" "diabetes").min_if = PyVal.none ∧
    (fallback_parse_response "query:\n2019 2023" "diabetes").max_if = PyVal.none :=
  C2_fallback_query_original "query:\n2019 2023" "diabetes" rfl rfl

theorem pyLt_num (x y : PyVal) (a b : ℚ) (hx : numValQ x = Option.some a)
    (hy : numValQ y = Option.some b) :
    pyLt x y = Except.ok (decide (a < b)) := by
  cases x <;> cases y <;> simp [numValQ] at hx hy <;>
    simp [pyLt, numValQ, hx, hy]

theorem pyTruthy_num (x : PyVal) (a : ℚ) (hx : numValQ x = Option.some a)
    (ha : a ≠ 0) : pyTruthy x = true := by
  cases x <;> simp [numValQ] at hx <;> simp [pyTruthy]
  · rename_i b
    cases b
    · simp at hx; exact absurd hx.symm ha
    · rfl
  · rename_i n
    intro h0
    apply ha
    rw [← hx, h0]
    simp
  · rename_i q
    intro h0
    exact absurd (hx ▸ h0) ha

theorem validate_years_num (ys ye : PyVal) (cy : Int) (a b : ℚ)
    (ha : numValQ ys = Option.some a) (hb : numValQ ye = Option.some b)
    (ha0 : a ≠ 0) (hb0 : b ≠ 0) :
    validate_years ys ye cy = Except.ok
      (if b < a then ye else ys,
       if (cy : ℚ) + 1 < max a b then PyVal.int cy
       else if b < a then ys else ye) := by
  have hts := pyTruthy_num ys a ha ha0
  have hte := pyTruthy_num ye b hb hb0
  have hcast : numValQ (PyVal.int (cy + 1)) = Option.some ((cy : ℚ) + 1) := by
    simp [numValQ]
  unfold validate_years
  rw [hts, hte]
  simp only [Bool.and_self, if_true]
  rw [pyGt, pyLt_num ye ys b a hb ha]
  simp only [Except.bind, bind]
  by_cases hba : b < a
  · rw [decide_eq_true hba]
    have hmax : max a b = a := max_eq_left (le_of_lt hba)
    simp only [if_true, hmax]
    rw [pyGt, pyLt_num (PyVal.int (cy + 1)) ys ((cy : ℚ) + 1) a hcast ha]
    by_cases hcl : (cy : ℚ) + 1 < a
    · rw [decide_eq_true hcl]
      simp [hba, hcl]
    · rw [decide_eq_false hcl]
      simp [hba, hcl]
  · rw [decide_eq_false hba]
    have hmax : max a b = b := by
      rw [max_comm]
      exact max_eq_left (not_lt.mp hba)
    simp only [if_false, Bool.false_eq_true, hmax]
    rw [pyGt, pyLt_num (PyVal.int (cy + 1)) ye ((cy : ℚ) + 1) b hcast hb]
    by_cases hcl : (cy : ℚ) + 1 < b
    · rw [decide_eq_true hcl]
      simp [hba, hcl]
    · rw [decide_eq_false hcl]
      simp [hba, hcl]

theorem validate_if_pair_num (mi ma : PyVal) (a b : ℚ)
    (ha : numValQ mi = Option.some a) (hb : numValQ ma = Option.some b)
    (ha0 : a ≠ 0) (hb0 : b ≠ 0) :
    validate_if_pair mi ma = Except.ok
      (if min a b < 0 then PyVal.int 0 else if b < a then ma else mi,
       if 100 < max a b then PyVal.int 100 else if b < a then mi else ma) := by
  have hts := pyTruthy_num mi a ha ha0
  have hte := pyTruthy_num ma b hb hb0
  have hc0 : numValQ (PyVal.int 0) = Option.some (0 : ℚ) := by simp [numValQ]
  have hc100 : numValQ (PyVal.int 100) = Option.some (100 : ℚ) := by
    simp [numValQ]
  unfold validate_if_pair
  rw [hts, hte]
  simp only [Bool.and_self, if_true]
  rw [pyGt, pyLt_num ma mi b a hb ha]
  simp only [Except.bind, bind]
  by_cases hba : b < a
  · rw [decide_eq_true hba]
    have hmin : min a b = b := by
      rw [min_comm]
      exact min_eq_left (le_of_lt hba)
    have hmax : max a b = a := max_eq_left (le_of_lt hba)
    simp only [if_true, hmin, hmax]
    rw [pyLt_num ma (PyVal.int 0) b 0 hb hc0]
    by_cases hlo : b < 0
    · rw [decide_eq_true hlo]
      simp only [Except.bind, bind, if_true]
      rw [pyGt, pyLt_num (PyVal.int 100) mi 100 a hc100 ha]
      by_cases hhi : 100 < a
      · rw [decide_eq_true hhi]
        simp [hba, hlo, hhi]
      · rw [decide_eq_false hhi]
        simp [hba, hlo, hhi]
    · rw [decide_eq_false hlo]
      simp only [Except.bind, bind]
      rw [pyGt, pyLt_num (PyVal.int 100) mi 100 a hc100 ha]
      by_cases hhi : 100 < a
      · rw [decide_eq_true hhi]
        simp [hba, hlo, hhi]
      · rw [decide_eq_false hhi]
        simp [hba, hlo, hhi]
  · rw [decide_eq_false hba]
    have hmin : min a b = a := min_eq_left (not_lt.mp hba)
    have hmax : max a b = b := by
      rw [max_comm]
      exact max_eq_left (not_lt.mp hba)
    simp only [if_false, Bool.false_eq_true, hmin, hmax]
    rw [pyLt_num mi (PyVal.int 0) a 0 ha hc0]
    by_cases hlo : a < 0
    · rw [decide_eq_true hlo]
      simp only [Except.bind, bind, if_true]
      rw [pyGt, pyLt_num (PyVal.int 100) ma 100 b hc100 hb]
      by_cases hhi : 100 < b
      · rw [decide_eq_true hhi]
        simp [hba, hlo, hhi]
      · rw [decide_eq_false hhi]
        simp [hba, hlo, hhi]
    · rw [decide_eq_false hlo]
      simp only [Except.bind, bind]
      rw [pyGt, pyLt_num (PyVal.int 100) ma 100 b hc100 hb]
      by_cases hhi : 100 < b
      · rw [decide_eq_true hhi]
        simp [hba, hlo, hhi]
      · rw [decide_eq_false hhi]
        simp [hba, hlo, hhi]

theorem validate_search_criteria_fields (data : PyDict) (orig : String)
    (cy : Int) (v : Validated)
    (hv : validate_search_criteria data orig cy = Except.ok v) :
    ∃ yp ip,
      validate_years (pyGet data "year_start" PyVal.none)
        (pyGet data "year_end" PyVal.none) cy = Except.ok yp ∧
      validate_if_pair (pyGet data "min_if" PyVal.none)
        (pyGet data "max_if" PyVal.none) = Except.ok ip ∧
      v.year_start = yp.1 ∧ v.year_end = yp.2 ∧
      v.min_if = ip.1 ∧ v.max_if = ip.2 := by
  unfold validate_search_criteria at hv
  cases hq : validate_query (pyGet data "query" (PyVal.str "")) orig with
  | error e => rw [hq] at hv; simp [Except.bind, bind] at hv
  | ok q =>
    rw [hq] at hv
    simp only [Except.bind, bind] at hv
    cases hy : validate_years (pyGet data "year_start" PyVal.none)
        (pyGet data "year_end" PyVal.none) cy with
    | error e => rw [hy] at hv; simp at hv
    | ok yp =>
      rw [hy] at hv
      cases hi : validate_if_pair (pyGet data "min_if" PyVal.none)
          (pyGet data "max_if" PyVal.none) with
      | error e => rw [hi] at hv; simp at hv
      | ok ip =>
        rw [hi] at hv
        cases hcz : validate_cas_zones (pyGet data "cas_zones" (PyVal.list [])) with
        | error e => rw [hcz] at hv; simp at hv
        | ok cz =>
          rw [hcz] at hv
          cases hkw : validate_keywords (pyGet data "keywords" (PyVal.list [])) with
          | error e => rw [hkw] at hv; simp at hv
          | ok kw =>
            rw [hkw] at hv
            simp only [Except.ok.injEq] at hv
            refine ⟨yp, ip, rfl, rfl, ?_, ?_, ?_, ?_⟩ <;> rw [← hv]

def c3CounterData : PyDict :=
  [("year_start", PyVal.int 2030), ("year_end", PyVal.int 2040)]

def c3CounterResult : Validated :=
  { query := "test", year_start := PyVal.int 2030, year_end := PyVal.int 2025,
    min_if := PyVal.none, max_if := PyVal.none, cas_zones := [],
    jcr_quartiles := [], keywords := [] }

/-- Counterexample to C3 as written: with year_start=2030, year_end=2040 and
current year 2025, validation returns (2030, 2025), so year_start exceeds
year_end — the claimed ordering guarantee fails when the smaller raw year is
itself in the future. -/
theorem C3_counterexample :
    validate_search_criteria c3CounterData "test" 2025 =
      Except.ok c3CounterResult ∧
    ¬ ((2030 : Int) ≤ 2025) := ⟨rfl, by decide⟩

/-- C3 (amended): when both year fields are present, numeric and nonzero,
validation swaps a reversed range and clamps the end at current_year+1; the
result satisfies year_end ≤ current_year+1 and year_start ≤ year_end provided
the smaller raw year does not exceed the current year. -/
theorem C3_year_repair (data : PyDict) (orig : String) (cy : Int) (a b : ℚ)
    (ha : numValQ (pyGet data "year_start" PyVal.none) = Option.some a)
    (hb : numValQ (pyGet data "year_end" PyVal.none) = Option.some b)
    (ha0 : a ≠ 0) (hb0 : b ≠ 0) (hmin : min a b ≤ (cy : ℚ))
    (v : Validated)
    (hv : validate_search_criteria data orig cy = Except.ok v) :
    ∃ a2 b2 : ℚ, numValQ v.year_start = Option.some a2 ∧
      numValQ v.year_end = Option.some b2 ∧
      b2 ≤ (cy : ℚ) + 1 ∧ a2 ≤ b2 := by
  obtain ⟨yp, ip, hy, hi, h1, h2, h3, h4⟩ :=
    validate_search_criteria_fields data orig cy v hv
  rw [validate_years_num _ _ cy a b ha hb ha0 hb0] at hy
  injection hy with hyp
  by_cases hba : b < a
  · have hmx : max a b = a := max_eq_left (le_of_lt hba)
    have hmn : min a b = b := by
      rw [min_comm]; exact min_eq_left (le_of_lt hba)
    by_cases hcl : (cy : ℚ) + 1 < max a b
    · refine ⟨b, (cy : ℚ), ?_, ?_, by linarith, by linarith [hmin, hmn]⟩
      · rw [h1, ← hyp]; simp [hba, hb]
      · rw [h2, ← hyp]; simp [hcl, numValQ]
    · refine ⟨b, a, ?_, ?_, ?_, le_of_lt hba⟩
      · rw [h1, ← hyp]; simp [hba, hb]
      · rw [h2, ← hyp]; simp [hcl, hba, ha]
      · rw [← hmx]; exact not_lt.mp hcl
  · have hmx : max a b = b := by
      rw [max_comm]; exact max_eq_left (not_lt.mp hba)
    have hmn : min a b = a := min_eq_left (not_lt.mp hba)
    by_cases hcl : (cy : ℚ) + 1 < max a b
    · refine ⟨a, (cy : ℚ), ?_, ?_, by linarith, by linarith [hmin, hmn]⟩
      · rw [h1, ← hyp]; simp [hba, ha]
      · rw [h2, ← hyp]; simp [hcl, numValQ]
    · refine ⟨a, b, ?_, ?_, ?_, not_lt.mp hba⟩
      · rw [h1, ← hyp]; simp [hba, ha]
      · rw [h2, ← hyp]; simp [hcl, hba, hb]
      · rw [← hmx]; exact not_lt.mp hcl


def c3WitnessResult : Validated :=
  { query := "test", year_start := PyVal.int 2010, year_end := PyVal.int 2020,
    min_if := PyVal.none, max_if := PyVal.none, cas_zones := [],
    jcr_quartiles := [], keywords := [] }

/-- Witness for C3_year_repair at year_start=2020, year_end=2010,
current year 2025: the range is swapped to (2010, 2020). -/
theorem C3_witness :
    ∃ a2 b2 : ℚ,
      numValQ c3WitnessResult.year_start = Option.some a2 ∧
      numValQ c3WitnessResult.year_end = Option.some b2 ∧
      b2 ≤ ((2025 : Int) : ℚ) + 1 ∧ a2 ≤ b2 :=
  C3_year_repair [("year_start", PyVal.int 2020), ("year_end", PyVal.int 2010)]
    "test" 2025 ((2020 : Int) : ℚ) ((2010 : Int) : ℚ) rfl rfl (by norm_num)
    (by norm_num) (by norm_num) c3WitnessResult rfl

def c4CounterData : PyDict := [("min_if", PyVal.int (-5))]

def c4CounterResult : Validated :=
  { query := "test", year_start := PyVal.none, year_end := PyVal.none,
    min_if := PyVal.int (-5), max_if := PyVal.none, cas_zones := [],
    jcr_quartiles := [], keywords := [] }

/-- Counterexample to C4 as written: min_if=-5 with max_if absent passes
through validation unclamped — a negative impact factor survives, because the
clamping branch requires both fields truthy. -/
theorem C4_counterexample :
    validate_search_criteria c4CounterData "test" 2025 =
      Except.ok c4CounterResult ∧ ((-5 : Int) < 0) := ⟨rfl, by decide⟩

/-- C4 (amended): when BOTH impact-factor fields are present, numeric and
nonzero, validation swaps a reversed pair and clamps into [0, 100]; under the
stated range hypotheses the result satisfies 0 ≤ min_if, max_if ≤ 100 and
min_if ≤ max_if. Lone fields pass through unclamped. -/
theorem C4_if_clamp (data : PyDict) (orig : String) (cy : Int) (a b : ℚ)
    (ha : numValQ (pyGet data "min_if" PyVal.none) = Option.some a)
    (hb : numValQ (pyGet data "max_if" PyVal.none) = Option.some b)
    (ha0 : a ≠ 0) (hb0 : b ≠ 0)
    (hlow : 0 ≤ max a b) (hhigh : min a b ≤ 100)
    (v : Validated)
    (hv : validate_search_criteria data orig cy = Except.ok v) :
    ∃ a2 b2 : ℚ, numValQ v.min_if = Option.some a2 ∧
      numValQ v.max_if = Option.some b2 ∧
      0 ≤ a2 ∧ b2 ≤ 100 ∧ a2 ≤ b2 := by
  obtain ⟨yp, ip, hy, hi, h1, h2, h3, h4⟩ :=
    validate_search_criteria_fields data orig cy v hv
  rw [validate_if_pair_num _ _ a b ha hb ha0 hb0] at hi
  injection hi with hip
  have hq0 : numValQ (PyVal.int 0) = Option.some (0 : ℚ) := by simp [numValQ]
  have hq100 : numValQ (PyVal.int 100) = Option.some (100 : ℚ) := by
    simp [numValQ]
  by_cases hba : b < a
  · have hmx : max a b = a := max_eq_left (le_of_lt hba)
    have hmn : min a b = b := by
      rw [min_comm]; exact min_eq_left (le_of_lt hba)
    by_cases hlo : min a b < 0
    · by_cases hhi : 100 < max a b
      · refine ⟨0, 100, ?_, ?_, le_refl 0, le_refl 100, by norm_num⟩
        · rw [h3, ← hip]; simp [hlo, numValQ]
        · rw [h4, ← hip]; simp [hhi, numValQ]
      · refine ⟨0, a, ?_, ?_, le_refl 0, ?_, ?_⟩
        · rw [h3, ← hip]; simp [hlo, numValQ]
        · rw [h4, ← hip]; simp [hhi, hba, ha]
        · rw [← hmx]; exact not_lt.mp hhi
        · rw [← hmx]; exact hlow
    · by_cases hhi : 100 < max a b
      · refine ⟨b, 100, ?_, ?_, ?_, le_refl 100, ?_⟩
        · rw [h3, ← hip]; simp [hlo, hba, hb]
        · rw [h4, ← hip]; simp [hhi, numValQ]
        · rw [← hmn]; exact not_lt.mp hlo
        · rw [← hmn]; exact hhigh
      · refine ⟨b, a, ?_, ?_, ?_, ?_, le_of_lt hba⟩
        · rw [h3, ← hip]; simp [hlo, hba, hb]
        · rw [h4, ← hip]; simp [hhi, hba, ha]
        · rw [← hmn]; exact not_lt.mp hlo
        · rw [← hmx]; exact not_lt.mp hhi
  · have hmx : max a b = b := by
      rw [max_comm]; exact max_eq_left (not_lt.mp hba)
    have hmn : min a b = a := min_eq_left (not_lt.mp hba)
    by_cases hlo : min a b < 0
    · by_cases hhi : 100 < max a b
      · refine ⟨0, 100, ?_, ?_, le_refl 0, le_refl 100, by norm_num⟩
        · rw [h3, ← hip]; simp [hlo, numValQ]
        · rw [h4, ← hip]; simp [hhi, numValQ]
      · refine ⟨0, b, ?_, ?_, le_refl 0, ?_, ?_⟩
        · rw [h3, ← hip]; simp [hlo, numValQ]
        · rw [h4, ← hip]; simp [hhi, hba, hb]
        · rw [← hmx]; exact not_lt.mp hhi
        · rw [← hmx]; exact hlow
    · by_cases hhi : 100 < max a b
      · refine ⟨a, 100, ?_, ?_, ?_, le_refl 100, ?_⟩
        · rw [h3, ← hip]; simp [hlo, hba, ha]
        · rw [h4, ← hip]; simp [hhi, numValQ]
        · rw [← hmn]; exact not_lt.mp hlo
        · rw [← hmn]; exact hhigh
      · refine ⟨a, b, ?_, ?_, ?_, ?_, not_lt.mp hba⟩
        · rw [h3, ← hip]; simp [hlo, hba, ha]
        · rw [h4, ← hip]; simp [hhi, hba, hb]
        · rw [← hmn]; exact not_lt.mp hlo
        · rw [← hmx]; exact not_lt.mp hhi

def c4WitnessResult : Validated :=
  { query := "test", year_start := PyVal.none, year_end := PyVal.none,
    min_if := PyVal.int 0, max_if := PyVal.int 100, cas_zones := [],
    jcr_quartiles := [], keywords := [] }

/-- Witness for C4_if_clamp at min_if=-5, max_if=500: result is (0, 100). -/
theorem C4_witness :
    ∃ a2 b2 : ℚ, numValQ c4WitnessResult.min_if = Option.some a2 ∧
      numValQ c4WitnessResult.max_if = Option.some b2 ∧
      0 ≤ a2 ∧ b2 ≤ 100 ∧ a2 ≤ b2 :=
  C4_if_clamp [("min_if", PyVal.int (-5)), ("max_if", PyVal.int 500)] "test"
    2025 ((-5 : Int) : ℚ) ((500 : Int) : ℚ) rfl rfl (by norm_num) (by norm_num)
    (by norm_num) (by norm_num) c4WitnessResult rfl

theorem pyDotGet_cases (v : PyVal) (k : String) (d : PyVal) :
    (∃ x, pyDotGet v k d = Except.ok x) ∨
      pyDotGet v k d = Except.error PyErr.attributeError := by
  cases v <;> simp [pyDotGet]

theorem pySubscript0_cases (v : PyVal) :
    (∃ x, pySubscript0 v = Except.ok x) ∨
      pySubscript0 v = Except.error PyErr.keyError ∨
      pySubscript0 v = Except.error PyErr.indexError ∨
      pySubscript0 v = Except.error PyErr.typeError := by
  cases v <;> simp [pySubscript0]
  · rename_i s
    cases hs : s.data <;> simp
  · rename_i xs
    cases xs <;> simp

theorem extractBody_cases (api : ApiType) (r : PyDict) :
    (∃ s, extractBody api r = Except.ok s) ∨
      extractBody api r = Except.error PyErr.attributeError ∨
      extractBody api r = Except.error PyErr.keyError ∨
      extractBody api r = Except.error PyErr.indexError ∨
      extractBody api r = Except.error PyErr.typeError := by
  cases api
  case other => exact Or.inl ⟨_, rfl⟩
  case openai =>
    unfold extractBody
    by_cases ht : pyTruthy (pyGet r "choices" (PyVal.list [])) = true
    · rw [if_pos ht]
      rcases pySubscript0_cases (pyGet r "choices" (PyVal.list []))
        with ⟨c0, hc⟩ | hc | hc | hc <;> rw [hc] <;>
        simp only [Except.bind, bind]
      · rcases pyDotGet_cases c0 "message" (PyVal.dict [])
          with ⟨m, hm⟩ | hm <;> rw [hm] <;> simp only [Except.bind, bind]
        · rcases pyDotGet_cases m "content" (PyVal.str "")
            with ⟨ct, hct⟩ | hct <;> rw [hct] <;> simp only [Except.bind, bind]
          · exact Or.inl ⟨_, rfl⟩
          · simp
        · simp
      · simp
      · simp
      · simp
    · rw [if_neg ht]
      exact Or.inl ⟨_, rfl⟩
  case gemini =>
    unfold extractBody
    by_cases ht : pyTruthy (pyGet r "candidates" (PyVal.list [])) = true
    · rw [if_pos ht]
      rcases pySubscript0_cases (pyGet r "candidates" (PyVal.list []))
        with ⟨c0, hc⟩ | hc | hc | hc <;> rw [hc] <;>
        simp only [Except.bind, bind]
      · rcases pyDotGet_cases c0 "content" (PyVal.dict [])
          with ⟨ct, hct⟩ | hct <;> rw [hct] <;> simp only [Except.bind, bind]
        · rcases pyDotGet_cases ct "parts" (PyVal.list [])
            with ⟨ps, hps⟩ | hps <;> rw [hps] <;> simp only [Except.bind, bind]
          · by_cases hpt : pyTruthy ps = true
            · rw [if_pos hpt]
              rcases pySubscript0_cases ps with ⟨p0, hp⟩ | hp | hp | hp <;>
                rw [hp] <;> simp only [Except.bind, bind]
              · rcases pyDotGet_cases p0 "text" (PyVal.str "")
                  with ⟨t, htx⟩ | htx <;> rw [htx] <;>
                  simp only [Except.bind, bind]
                · exact Or.inl ⟨_, rfl⟩
                · simp
              · simp
              · simp
              · simp
            · rw [if_neg hpt]
              exact Or.inl ⟨_, rfl⟩
          · simp
        · simp
      · simp
      · simp
      · simp
    · rw [if_neg ht]
      exact Or.inl ⟨_, rfl⟩

/-- C6 (counterexample): the envelope whose `choices` entry is the list
`[1]` makes extraction raise `AttributeError` to its caller (Python:
`(1).get(...)` does not exist; only `KeyError`, `IndexError` and
`TypeError` are caught), contradicting "extraction never raises". -/
theorem C6_counterexample :
    extract_response_content ApiType.openai
      [("choices", PyVal.list [PyVal.int 1])] =
      Except.error PyErr.attributeError := rfl

/-- C6 (amended): extraction never raises anything except `AttributeError`
— every structural mismatch (missing keys, wrong types, empty
collections) that triggers one of the caught exception kinds yields a
string result (the empty string on the fall-through paths) — and an
envelope carrying an explicit `error` field yields the diagnostic string
embedding that error.  `AttributeError` escapes exactly when a value
reached by the drill-down is subjected to `.get` without being a dict. -/
theorem C6_extract_safe (api : ApiType) (r : PyDict) :
    ((∃ s, extract_response_content api r = Except.ok s) ∨
      extract_response_content api r = Except.error PyErr.attributeError) ∧
    (∀ e, dictLookup r "error" = Option.some e →
      extract_response_content api r = Except.ok ("错误: " ++ pyToStr e)) := by
  constructor
  · unfold extract_response_content
    cases hl : dictLookup r "error" with
    | some e => exact Or.inl ⟨_, rfl⟩
    | none =>
      rcases extractBody_cases api r with ⟨s, hb⟩ | hb | hb | hb | hb <;>
        rw [hb]
      · cases s <;> exact Or.inl ⟨_, rfl⟩
      · exact Or.inr rfl
      · exact Or.inl ⟨_, rfl⟩
      · exact Or.inl ⟨_, rfl⟩
      · exact Or.inl ⟨_, rfl⟩
  · intro e he
    unfold extract_response_content
    rw [he]

/-- Witness for C6 at a concrete envelope with an explicit error field. -/
theorem C6_witness :
    extract_response_content ApiType.openai [("error", PyVal.str "boom")] =
      Except.ok ("错误: " ++ pyToStr (PyVal.str "boom")) :=
  (C6_extract_safe ApiType.openai [("error", PyVal.str "boom")]).2
    (PyVal.str "boom") rfl

theorem assocContains_cons {α β : Type} [DecidableEq α] (p : α × β)
    (l : List (α × β)) (k2 : α) :
    assocContains (p :: l) k2 = (decide (p.1 = k2) || assocContains l k2) := by
  unfold assocContains assocLookup
  by_cases h : p.1 = k2
  · rw [List.find?_cons_of_pos _ (by simp [h])]
    simp [h]
  · rw [List.find?_cons_of_neg _ (by simp [h])]
    simp [h]

theorem assocContains_iff_mem {α β : Type} [DecidableEq α]
    (l : List (α × β)) (k : α) :
    assocContains l k = true ↔ ∃ v, (k, v) ∈ l := by
  induction l with
  | nil => simp [assocContains, assocLookup]
  | cons p rest ih =>
    rw [assocContains_cons, Bool.or_eq_true_iff, ih]
    constructor
    · rintro (h | ⟨v, hv⟩)
      · exact ⟨p.2, by simp at h; rw [← h]; exact List.mem_cons_self _ _⟩
      · exact ⟨v, List.mem_cons_of_mem _ hv⟩
    · rintro ⟨v, hv⟩
      rcases List.mem_cons.mp hv with h | h
      · left; rw [← h]; simp
      · right; exact ⟨v, h⟩

theorem assocContains_append {α β : Type} [DecidableEq α]
    (l1 l2 : List (α × β)) (k : α) :
    assocContains (l1 ++ l2) k = (assocContains l1 k || assocContains l2 k) := by
  induction l1 with
  | nil => simp [assocContains, assocLookup]
  | cons p rest ih =>
    rw [List.cons_append, assocContains_cons, assocContains_cons, ih,
      Bool.or_assoc]

theorem assocContains_replaceMap {α β : Type} [DecidableEq α]
    (l : List (α × β)) (k k2 : α) (v : β) :
    assocContains (l.map (fun p => if p.1 = k then (k, v) else p)) k2 =
      assocContains l k2 := by
  induction l with
  | nil => rfl
  | cons p rest ih =>
    rw [List.map_cons, assocContains_cons, assocContains_cons, ih]
    by_cases h : p.1 = k
    · simp [h]
    · simp [h]

theorem assocContains_assocSet {α β : Type} [DecidableEq α]
    (l : List (α × β)) (k k2 : α) (v : β) :
    assocContains (assocSet l k v) k2 =
      (decide (k2 = k) || assocContains l k2) := by
  unfold assocSet
  by_cases hp : l.any (fun p => decide (p.1 = k)) = true
  · rw [if_pos hp, assocContains_replaceMap]
    by_cases hk : k2 = k
    · subst hk
      have hc : assocContains l k2 = true := by
        rw [assocContains_iff_mem]
        obtain ⟨p, hmem, hpk⟩ := List.any_eq_true.mp hp
        refine ⟨p.2, ?_⟩
        have hpk2 : p.1 = k2 := by simpa using hpk
        rw [← hpk2]
        exact hmem
      simp [hc]
    · simp [hk]
  · rw [if_neg hp, assocContains_append]
    have h1 : assocContains [(k, v)] k2 = decide (k = k2) := by
      rw [assocContains_cons]
      simp [assocContains, assocLookup]
    have hsym : (decide (k = k2)) = (decide (k2 = k)) := by
      by_cases h : k = k2
      · rw [decide_eq_true h, decide_eq_true h.symm]
      · rw [decide_eq_false h, decide_eq_false (fun hh => h hh.symm)]
    rw [h1, hsym, Bool.or_comm]

theorem assocContains_eraseFilter {α β : Type} [DecidableEq α]
    (l : List (α × β)) (k k2 : α) :
    assocContains (l.filter (fun p => ¬ p.1 = k)) k2 =
      (assocContains l k2 && !(decide (k2 = k))) := by
  induction l with
  | nil => simp [assocContains, assocLookup]
  | cons p rest ih =>
    by_cases h : p.1 = k
    · rw [List.filter_cons_of_neg (by simp [h]), ih, assocContains_cons]
      by_cases hk : k2 = k
      · rw [decide_eq_true hk]
        simp
      · rw [decide_eq_false hk]
        have hpf : decide (p.1 = k2) = false :=
          decide_eq_false (fun hq => hk (hq ▸ h))
        simp [hpf]
    · rw [List.filter_cons_of_pos (by simp [h]), assocContains_cons, ih,
        assocContains_cons]
      by_cases hk : k2 = k
      · rw [decide_eq_true hk]
        have hpf : decide (p.1 = k2) = false :=
          decide_eq_false (fun hq => h (hk ▸ hq))
        simp [hpf]
      · rw [decide_eq_false hk]
        simp

theorem filterLenLe {α : Type} (p : α → Bool) (l : List α) :
    (l.filter p).length ≤ l.length := by
  induction l with
  | nil => simp
  | cons x rest ih =>
    by_cases h : p x = true
    · rw [List.filter_cons_of_pos h]
      simp
      omega
    · rw [List.filter_cons_of_neg (by simp [h])]
      simp
      omega

theorem eraseFilter_length {α β : Type} [DecidableEq α]
    (l : List (α × β)) (k : α) (h : assocContains l k = true) :
    (l.filter (fun p => ¬ p.1 = k)).length + 1 ≤ l.length := by
  obtain ⟨v, hmem⟩ := (assocContains_iff_mem l k).mp h
  clear h
  induction l with
  | nil => simp at hmem
  | cons p rest ih =>
    rcases List.mem_cons.mp hmem with hp | hp
    · rw [List.filter_cons_of_neg (by rw [← hp]; simp)]
      have h2 := filterLenLe (fun q : α × β => decide (¬ q.1 = k)) rest
      simp at h2 ⊢
      omega
    · by_cases hpk : p.1 = k
      · rw [List.filter_cons_of_neg (by simp [hpk])]
        have h2 := filterLenLe (fun q : α × β => decide (¬ q.1 = k)) rest
        simp at h2 ⊢
        omega
      · rw [List.filter_cons_of_pos (by simp [hpk])]
        have h2 := ih hp
        simp at h2 ⊢
        omega

theorem assocSet_length {α β : Type} [DecidableEq α]
    (l : List (α × β)) (k : α) (v : β) :
    (assocSet l k v).length ≤ l.length + 1 := by
  unfold assocSet
  by_cases hp : l.any (fun p => decide (p.1 = k)) = true
  · rw [if_pos hp]
    simp
  · rw [if_neg hp]
    simp

theorem minByVal_mem {α : Type} (best : α × ℚ) (l : List (α × ℚ)) :
    minByVal best l = best ∨ minByVal best l ∈ l := by
  induction l generalizing best with
  | nil => exact Or.inl rfl
  | cons p rest ih =>
    rw [minByVal]
    by_cases h : p.2 < best.2
    · rw [if_pos h]
      rcases ih p with h1 | h1
      · exact Or.inr (by rw [h1]; exact List.mem_cons_self _ _)
      · exact Or.inr (List.mem_cons_of_mem _ h1)
    · rw [if_neg h]
      rcases ih best with h1 | h1
      · exact Or.inl h1
      · exact Or.inr (List.mem_cons_of_mem _ h1)

theorem minByVal_le {α : Type} (best : α × ℚ) (l : List (α × ℚ)) :
    (minByVal best l).2 ≤ best.2 ∧ ∀ p ∈ l, (minByVal best l).2 ≤ p.2 := by
  induction l generalizing best with
  | nil => exact ⟨le_refl _, by simp⟩
  | cons p rest ih =>
    rw [minByVal]
    by_cases h : p.2 < best.2
    · rw [if_pos h]
      obtain ⟨h1, h2⟩ := ih p
      refine ⟨le_trans h1 (le_of_lt h), ?_⟩
      intro q hq
      rcases List.mem_cons.mp hq with hq1 | hq2
      · rw [hq1]
        exact h1
      · exact h2 q hq2
    · rw [if_neg h]
      obtain ⟨h1, h2⟩ := ih best
      refine ⟨h1, ?_⟩
      intro q hq
      rcases List.mem_cons.mp hq with hq1 | hq2
      · rw [hq1]
        exact le_trans h1 (not_lt.mp h)
      · exact h2 q hq2

theorem pyDelKey_ok {α β : Type} [DecidableEq α] (l : List (α × β)) (k : α)
    (l2 : List (α × β)) (h : pyDelKey l k = Except.ok l2) :
    l2 = l.filter (fun p => ¬ p.1 = k) ∧ assocContains l k = true := by
  unfold pyDelKey at h
  by_cases hc : assocContains l k = true
  · rw [if_pos hc] at h
    exact ⟨((Except.ok.injEq _ _).mp h).symm, hc⟩
  · rw [if_neg hc] at h
    exact absurd h (by simp)

/-- The C10 invariant, computably: the two dicts of the cache hold exactly
the same keys. -/
def cacheKeysAligned (s : IntentAnalysisCache) : Bool :=
  s.cache.all (fun p => assocContains s.access_times p.1) &&
  s.access_times.all (fun p => assocContains s.cache p.1)

theorem cacheKeysAligned_iff (s : IntentAnalysisCache) :
    cacheKeysAligned s = true ↔
      ∀ k, assocContains s.cache k = assocContains s.access_times k := by
  unfold cacheKeysAligned
  rw [Bool.and_eq_true, List.all_eq_true, List.all_eq_true]
  constructor
  · rintro ⟨h1, h2⟩ k
    cases hc : assocContains s.cache k <;>
      cases ha : assocContains s.access_times k
    · rfl
    · obtain ⟨v, hv⟩ := (assocContains_iff_mem _ _).mp ha
      have h3 := h2 ⟨k, v⟩ hv
      dsimp at h3
      rw [h3] at hc
      exact Bool.noConfusion hc
    · obtain ⟨v, hv⟩ := (assocContains_iff_mem _ _).mp hc
      have h3 := h1 ⟨k, v⟩ hv
      dsimp at h3
      rw [h3] at ha
      exact Bool.noConfusion ha.symm
    · rfl
  · intro h
    constructor
    · intro p hp
      rw [← h p.1]
      exact (assocContains_iff_mem _ _).mpr ⟨p.2, by rwa [Prod.mk.eta]⟩
    · intro p hp
      rw [h p.1]
      exact (assocContains_iff_mem _ _).mpr ⟨p.2, by rwa [Prod.mk.eta]⟩

/-- C10: the key set of the entry store and the key set of the access-time
map coincide after every cache operation — `get` (all three paths: fresh
hit, expired eviction, miss), every `put` that returns, and `clear`. -/
theorem C10_keys_invariant (s : IntentAnalysisCache)
    (hs0 : cacheKeysAligned s = true) :
    (∀ k now, cacheKeysAligned (s.get k now).2 = true) ∧
    (∀ k c now s2, s.put k c now = Except.ok s2 →
      cacheKeysAligned s2 = true) ∧
    cacheKeysAligned s.clear = true := by
  have hs := (cacheKeysAligned_iff s).mp hs0
  refine ⟨?_, ?_, ?_⟩
  · intro k now
    rw [cacheKeysAligned_iff]
    intro k2
    unfold IntentAnalysisCache.get
    split
    · rename_i entry hl
      have hck : assocContains s.cache k = true := by
        unfold assocContains
        rw [hl]
        rfl
      split
      · dsimp
        rw [assocContains_assocSet, ← hs k2]
        by_cases hk : k2 = k
        · subst hk
          simp [hck]
        · simp [hk]
      · dsimp
        have hak : assocContains s.access_times k = true := by
          rw [← hs k]
          exact hck
        rw [if_pos hak, assocContains_eraseFilter, assocContains_eraseFilter,
          hs k2]
    · dsimp
      exact hs k2
  · intro k c now s2 hput
    unfold IntentAnalysisCache.put at hput
    split at hput
    · split at hput
      · simp [Except.bind, bind] at hput
      · rename_i best hmin
        simp only [Except.bind, bind] at hput
        cases hd1 : pyDelKey s.cache best.1 with
        | error e =>
          rw [hd1] at hput
          simp at hput
        | ok cache2 =>
          rw [hd1] at hput
          cases hd2 : pyDelKey s.access_times best.1 with
          | error e =>
            rw [hd2] at hput
            simp at hput
          | ok at2 =>
            rw [hd2] at hput
            simp only [Except.ok.injEq] at hput
            obtain ⟨hc2, -⟩ := pyDelKey_ok _ _ _ hd1
            obtain ⟨ha2, -⟩ := pyDelKey_ok _ _ _ hd2
            rw [cacheKeysAligned_iff]
            intro k2
            rw [← hput]
            dsimp
            rw [hc2, ha2, assocContains_assocSet, assocContains_assocSet,
              assocContains_eraseFilter, assocContains_eraseFilter, hs k2]
    · simp only [Except.bind, bind, Except.ok.injEq] at hput
      rw [cacheKeysAligned_iff]
      intro k2
      rw [← hput]
      dsimp
      rw [assocContains_assocSet, assocContains_assocSet, hs k2]
  · rfl

/-- Witness for C10: the invariant is preserved by a concrete `get` on a
concrete aligned cache. -/
theorem C10_witness :
    cacheKeysAligned ((IntentAnalysisCache.init 2 100).get
      ("diabetes", "model-a", "p") 5).2 = true :=
  (C10_keys_invariant (IntentAnalysisCache.init 2 100) (by decide)).1
    ("diabetes", "model-a", "p") 5


/-- The eviction path of `put`, fully characterized. -/
theorem put_evict_eq (s : IntentAnalysisCache) (k : CacheKey)
    (c : SearchCriteria) (now : ℚ) (best : CacheKey × ℚ)
    (hfull : s.cache_size ≤ s.cache.length)
    (hmin : minAccessPair s.access_times = Option.some best)
    (hc : assocContains s.cache best.1 = true)
    (ha : assocContains s.access_times best.1 = true) :
    s.put k c now = Except.ok
      { cache_size := s.cache_size, ttl := s.ttl,
        cache := assocSet (s.cache.filter (fun p => ¬ p.1 = best.1)) k
          { criteria := c, timestamp := now, user_input := k.1,
            model_id := k.2.1, parameters := k.2.2 },
        access_times := assocSet
          (s.access_times.filter (fun p => ¬ p.1 = best.1)) k now,
        hits := s.hits, misses := s.misses,
        evictions := s.evictions + 1 } := by
  unfold IntentAnalysisCache.put
  rw [if_pos hfull]
  split
  · rename_i heq
    rw [hmin] at heq
    exact Option.noConfusion heq
  · rename_i b heq
    rw [hmin] at heq
    injection heq with hb
    subst hb
    unfold pyDelKey
    rw [if_pos hc]
    simp only [Except.bind, bind]
    rw [if_pos ha]

/-- C8: with the cache in a reachable full state (aligned key sets, entry
count at capacity — under a fixed capacity the count can never exceed
it — and a positive capacity), `put` succeeds; it first evicts exactly
the key with the least-recent last-access time (not the least-recently
inserted: the minimum is taken over access times), then inserts, and the
resulting entry count still does not exceed the capacity. -/
theorem C8_lru_eviction (s : IntentAnalysisCache) (k : CacheKey)
    (c : SearchCriteria) (now : ℚ)
    (hal : cacheKeysAligned s = true)
    (hfull : s.cache_size ≤ s.cache.length)
    (hbound : s.cache.length ≤ s.cache_size)
    (hpos : 1 ≤ s.cache_size) :
    ∃ evk evt s2, s.put k c now = Except.ok s2 ∧
      ((evk, evt) ∈ s.access_times ∧ ∀ p ∈ s.access_times, evt ≤ p.2) ∧
      (∀ k2, assocContains s2.cache k2 =
        (decide (k2 = k) ||
          (assocContains s.cache k2 && !(decide (k2 = evk))))) ∧
      s2.cache.length ≤ s.cache_size := by
  have hs := (cacheKeysAligned_iff s).mp hal
  -- the cache is nonempty, hence so is the access-time map
  have hcne : s.cache ≠ [] := by
    intro h0
    rw [h0] at hfull
    simp at hfull
    omega
  obtain ⟨p0, rest0, hc0⟩ := List.exists_cons_of_ne_nil hcne
  have hac0 : assocContains s.access_times p0.1 = true := by
    rw [← hs p0.1]
    exact (assocContains_iff_mem _ _).mpr ⟨p0.2, by rw [hc0, Prod.mk.eta]; exact List.mem_cons_self _ _⟩
  have hane : s.access_times ≠ [] := by
    intro h0
    rw [h0] at hac0
    simp [assocContains, assocLookup] at hac0
  obtain ⟨q0, qrest, ha0⟩ := List.exists_cons_of_ne_nil hane
  -- the minimum over access times
  have hmin : minAccessPair s.access_times = Option.some (minByVal q0 qrest) := by
    rw [ha0]
    rfl
  have hbmem : minByVal q0 qrest ∈ s.access_times := by
    rw [ha0]
    rcases minByVal_mem q0 qrest with h | h
    · rw [h]
      exact List.mem_cons_self _ _
    · exact List.mem_cons_of_mem _ h
  have hble : ∀ p ∈ s.access_times, (minByVal q0 qrest).2 ≤ p.2 := by
    intro p hp
    rw [ha0] at hp
    rcases List.mem_cons.mp hp with h | h
    · rw [h]
      exact (minByVal_le q0 qrest).1
    · exact (minByVal_le q0 qrest).2 p h
  have hacb : assocContains s.access_times (minByVal q0 qrest).1 = true :=
    (assocContains_iff_mem _ _).mpr ⟨(minByVal q0 qrest).2, by rwa [Prod.mk.eta]⟩
  have hccb : assocContains s.cache (minByVal q0 qrest).1 = true := by
    rw [hs (minByVal q0 qrest).1]
    exact hacb
  have hdel1 : pyDelKey s.cache (minByVal q0 qrest).1 =
      Except.ok (s.cache.filter (fun p => ¬ p.1 = (minByVal q0 qrest).1)) := by
    unfold pyDelKey
    rw [if_pos hccb]
  have hdel2 : pyDelKey s.access_times (minByVal q0 qrest).1 =
      Except.ok (s.access_times.filter
        (fun p => ¬ p.1 = (minByVal q0 qrest).1)) := by
    unfold pyDelKey
    rw [if_pos hacb]
  refine ⟨(minByVal q0 qrest).1, (minByVal q0 qrest).2,
    { cache_size := s.cache_size, ttl := s.ttl,
      cache := assocSet
        (s.cache.filter (fun p => ¬ p.1 = (minByVal q0 qrest).1)) k
        { criteria := c, timestamp := now, user_input := k.1,
          model_id := k.2.1, parameters := k.2.2 },
      access_times := assocSet
        (s.access_times.filter (fun p => ¬ p.1 = (minByVal q0 qrest).1)) k now,
      hits := s.hits, misses := s.misses, evictions := s.evictions + 1 },
    ?_, ⟨by rwa [Prod.mk.eta], hble⟩, ?_, ?_⟩
  · exact put_evict_eq s k c now (minByVal q0 qrest) hfull hmin hccb hacb
  · intro k2
    dsimp
    rw [assocContains_assocSet, assocContains_eraseFilter]
  · dsimp
    have h1 := assocSet_length
      (s.cache.filter (fun p => ¬ p.1 = (minByVal q0 qrest).1)) k
      ({ criteria := c, timestamp := now, user_input := k.1,
         model_id := k.2.1, parameters := k.2.2 } : CacheEntry)
    have h2 := eraseFilter_length s.cache (minByVal q0 qrest).1 hccb
    omega

def c8State : IntentAnalysisCache :=
  { cache_size := 1, ttl := 100,
    cache := [(("a", "m", "p"),
      { criteria := { query := "q" }, timestamp := 0, user_input := "a",
        model_id := "m", parameters := "p" })],
    access_times := [(("a", "m", "p"), 5)],
    hits := 0, misses := 0, evictions := 0 }

/-- Witness for C8: a concrete full cache of capacity one evicts its only
(least-recently-accessed) entry on `put`. -/
theorem C8_witness :
    ∃ evk evt s2,
      c8State.put ("b", "m", "p") { query := "q2" } 10 = Except.ok s2 ∧
      ((evk, evt) ∈ c8State.access_times ∧
        ∀ p ∈ c8State.access_times, evt ≤ p.2) ∧
      (∀ k2, assocContains s2.cache k2 =
        (decide (k2 = ("b", "m", "p")) ||
          (assocContains c8State.cache k2 && !(decide (k2 = evk))))) ∧
      s2.cache.length ≤ c8State.cache_size :=
  C8_lru_eviction c8State ("b", "m", "p") { query := "q2" } 10 (by decide)
    (by decide) (by decide) (by decide)

theorem get_miss (s : IntentAnalysisCache) (k : CacheKey) (now : ℚ)
    (h : assocLookup s.cache k = Option.none) :
    s.get k now = (Option.none, { s with misses := s.misses + 1 }) := by
  unfold IntentAnalysisCache.get
  rw [h]

theorem put_counters (s : IntentAnalysisCache) (k : CacheKey)
    (c : SearchCriteria) (now : ℚ) (s2 : IntentAnalysisCache)
    (h : s.put k c now = Except.ok s2) : s2.hits = s.hits := by
  unfold IntentAnalysisCache.put at h
  split at h
  · split at h
    · simp [Except.bind, bind] at h
    · rename_i best heq
      simp only [Except.bind, bind] at h
      cases hd1 : pyDelKey s.cache best.1 with
      | error e =>
        rw [hd1] at h
        simp at h
      | ok c2 =>
        rw [hd1] at h
        cases hd2 : pyDelKey s.access_times best.1 with
        | error e =>
          rw [hd2] at h
          simp at h
        | ok a2 =>
          rw [hd2] at h
          simp only [Except.ok.injEq] at h
          rw [← h]
  · simp only [Except.bind, bind, Except.ok.injEq] at h
    rw [← h]

theorem analyze_intent_miss (st : IntentAnalyzer) (ui : String)
    (ai : Except PyErr PyDict) (cy : Int) (now lat : ℚ)
    (hmiss : assocLookup st.analysis_cache.cache
      (ui, st.model_id, st.parameters) = Option.none) :
    (st.analyze_intent ui ai cy now lat).2.model_id = st.model_id ∧
    (st.analyze_intent ui ai cy now lat).2.parameters = st.parameters ∧
    (st.analyze_intent ui ai cy now lat).2.analysis_cache.hits =
      st.analysis_cache.hits ∧
    (st.analyze_intent ui ai cy now lat).2.cache_hits = st.cache_hits ∧
    ((st.analyze_intent ui ai cy now lat).1.query = ui →
      (st.analyze_intent ui ai cy now lat).2.analysis_cache.cache =
        st.analysis_cache.cache) := by
  unfold IntentAnalyzer.analyze_intent IntentAnalyzer.cacheKeyOf
  dsimp only
  by_cases hec : st.enable_cache = true
  · rw [if_pos hec]
    rw [get_miss _ _ _ hmiss]
    dsimp only
    split
    · exact ⟨rfl, rfl, rfl, rfl, fun _ => rfl⟩
    · split
      · exact ⟨rfl, rfl, rfl, rfl, fun _ => rfl⟩
      · split
        · exact ⟨rfl, rfl, rfl, rfl, fun _ => rfl⟩
        · split
          · exact ⟨rfl, rfl, rfl, rfl, fun _ => rfl⟩
          · split
            · split
              · rename_i hcond xput cache2 hput
                have h2 := put_counters _ _ _ _ _ hput
                refine ⟨rfl, rfl, h2, rfl, ?_⟩
                intro hq
                dsimp at hq
                rw [Bool.and_eq_true] at hcond
                obtain ⟨-, hne⟩ := hcond
                simp at hne
                exact absurd hq hne
              · exact ⟨rfl, rfl, rfl, rfl, fun _ => rfl⟩
            · exact ⟨rfl, rfl, rfl, rfl, fun _ => rfl⟩
  · rw [if_neg hec]
    dsimp only
    split
    · exact ⟨rfl, rfl, rfl, rfl, fun _ => rfl⟩
    · split
      · exact ⟨rfl, rfl, rfl, rfl, fun _ => rfl⟩
      · split
        · exact ⟨rfl, rfl, rfl, rfl, fun _ => rfl⟩
        · split
          · exact ⟨rfl, rfl, rfl, rfl, fun _ => rfl⟩
          · split
            · rename_i hcond
              rw [Bool.and_eq_true] at hcond
              exact absurd hcond.1 hec
            · exact ⟨rfl, rfl, rfl, rfl, fun _ => rfl⟩

/-- C9: a resolution that starts from a cache miss and produces criteria
whose query equals the original input is not stored — the key is still
absent afterwards — so an immediately repeated call with identical
arguments misses again: neither the cache hit counter nor the
coordinator's cache-hit counter increments across the second call. -/
theorem C9_degenerate_not_cached (st : IntentAnalyzer) (ui : String)
    (ai1 ai2 : Except PyErr PyDict) (cy1 cy2 : Int) (now1 now2 lat1 lat2 : ℚ)
    (hmiss : assocLookup st.analysis_cache.cache
      (ui, st.model_id, st.parameters) = Option.none)
    (hq : (st.analyze_intent ui ai1 cy1 now1 lat1).1.query = ui) :
    assocLookup
      (st.analyze_intent ui ai1 cy1 now1 lat1).2.analysis_cache.cache
      (ui, st.model_id, st.parameters) = Option.none ∧
    ((st.analyze_intent ui ai1 cy1 now1 lat1).2.analyze_intent ui ai2 cy2
        now2 lat2).2.analysis_cache.hits =
      (st.analyze_intent ui ai1 cy1 now1 lat1).2.analysis_cache.hits ∧
    ((st.analyze_intent ui ai1 cy1 now1 lat1).2.analyze_intent ui ai2 cy2
        now2 lat2).2.cache_hits =
      (st.analyze_intent ui ai1 cy1 now1 lat1).2.cache_hits := by
  obtain ⟨hA, hB, hC, hCH, hD⟩ :=
    analyze_intent_miss st ui ai1 cy1 now1 lat1 hmiss
  have hcache1 := hD hq
  have hkey1 : assocLookup
      (st.analyze_intent ui ai1 cy1 now1 lat1).2.analysis_cache.cache
      (ui, st.model_id, st.parameters) = Option.none := by
    rw [hcache1]
    exact hmiss
  refine ⟨hkey1, ?_, ?_⟩
  · have hmiss2 : assocLookup
        (st.analyze_intent ui ai1 cy1 now1 lat1).2.analysis_cache.cache
        (ui, (st.analyze_intent ui ai1 cy1 now1 lat1).2.model_id,
          (st.analyze_intent ui ai1 cy1 now1 lat1).2.parameters) =
        Option.none := by
      rw [hA, hB]
      exact hkey1
    obtain ⟨-, -, hC2, -, -⟩ := analyze_intent_miss
      (st.analyze_intent ui ai1 cy1 now1 lat1).2 ui ai2 cy2 now2 lat2 hmiss2
    exact hC2
  · have hmiss2 : assocLookup
        (st.analyze_intent ui ai1 cy1 now1 lat1).2.analysis_cache.cache
        (ui, (st.analyze_intent ui ai1 cy1 now1 lat1).2.model_id,
          (st.analyze_intent ui ai1 cy1 now1 lat1).2.parameters) =
        Option.none := by
      rw [hA, hB]
      exact hkey1
    obtain ⟨-, -, -, hCH2, -⟩ := analyze_intent_miss
      (st.analyze_intent ui ai1 cy1 now1 lat1).2 ui ai2 cy2 now2 lat2 hmiss2
    exact hCH2

def c9Analyzer : IntentAnalyzer :=
  { enable_cache := true, api := ApiType.openai, model_id := "m",
    parameters := "p", analysis_cache := IntentAnalysisCache.init 500 3600,
    total_analyses := 0, cache_hits := 0, ai_calls := 0, errors := 0,
    total_latency := 0 }

/-- Witness for C9: a transport failure degrades to the original-input
fallback, which is not cached, and the repeated call does not hit. -/
theorem C9_witness :
    assocLookup
      (c9Analyzer.analyze_intent "diabetes" (Except.error PyErr.typeError)
        2025 0 1).2.analysis_cache.cache
      ("diabetes", c9Analyzer.model_id, c9Analyzer.parameters) =
      Option.none ∧
    (((c9Analyzer.analyze_intent "diabetes" (Except.error PyErr.typeError)
        2025 0 1).2.analyze_intent "diabetes"
        (Except.error PyErr.typeError) 2025 5 1).2.analysis_cache.hits =
      (c9Analyzer.analyze_intent "diabetes" (Except.error PyErr.typeError)
        2025 0 1).2.analysis_cache.hits) ∧
    (((c9Analyzer.analyze_intent "diabetes" (Except.error PyErr.typeError)
        2025 0 1).2.analyze_intent "diabetes"
        (Except.error PyErr.typeError) 2025 5 1).2.cache_hits =
      (c9Analyzer.analyze_intent "diabetes" (Except.error PyErr.typeError)
        2025 0 1).2.cache_hits) :=
  C9_degenerate_not_cached c9Analyzer "diabetes" (Except.error PyErr.typeError)
    (Except.error PyErr.typeError) 2025 2025 0 5 1 1 rfl rfl
